import Mathlib

/-
Verification of the SHS01 presence-sensor firmware core (src/SHS01/main/shs01.c,
src/SHS01/main/shs01.h).  The C globals are collected into explicit state
structures; times are naturals carrying the 32-bit millisecond counter values,
with the uint32 wrap-around made explicit as `% 4294967296`.
-/

/-! ## Constants from shs01.h -/

def SHS_COOLDOWN_MAX_SEC : Nat := 300

def SHS_NVS_DEBOUNCE_MS : Nat := 500

def SHS_ATTR_MOVEMENT_COOLDOWN : Nat := 0x0001

def SHS_ATTR_OCC_CLEAR_COOLDOWN : Nat := 0x0002

def SHS_ATTR_MOVING_SENS_0_10 : Nat := 0x0003

def SHS_ATTR_STATIC_SENS_0_10 : Nat := 0x0004

def SHS_ATTR_MOVING_MAX_GATE : Nat := 0x0005

def SHS_ATTR_STATIC_MAX_GATE : Nat := 0x0006

def SHS_UART_ACC_BUF_SIZE : Nat := 1024

def SHS_LD2410_MIN_FRAME_BYTES : Nat := 9

def SHS_LD2410_HDR_RX0 : Nat := 0xF4

def SHS_LD2410_HDR_RX1 : Nat := 0xF3

def SHS_LD2410_HDR_RX2 : Nat := 0xF2

def SHS_LD2410_HDR_RX3 : Nat := 0xF1

def SHS_LD2410_TAIL_RX0 : Nat := 0xF8

def SHS_LD2410_TAIL_RX1 : Nat := 0xF7

def SHS_LD2410_TAIL_RX2 : Nat := 0xF6

def SHS_LD2410_TAIL_RX3 : Nat := 0xF5

/-! ## Global state of shs01.c

The mutable globals of shs01.c (configuration backing store, published
states, movement-cooldown state), with their C initializers as defaults. -/

structure ShsState where
  movementCooldownSec : Nat := 0
  occupancyClearSec : Nat := 0
  movingSens0_100 : Nat := 60
  staticSens0_100 : Nat := 50
  movingMaxGate : Nat := 8
  staticMaxGate : Nat := 8
  sensMv0_10 : Nat := 6
  sensSt0_10 : Nat := 5
  movingState : Bool := false
  staticState : Bool := false
  occupancyState : Bool := false
  mvCooldownActive : Bool := false
  mvCooldownDeadlineMs : Nat := 0
  lastMovingSample : Bool := false

/-- shs_time_reached: `(int32_t)(now - deadline) >= 0` on uint32 operands;
the uint32 difference is taken mod 2^32 and the int32 cast is nonnegative
exactly when that difference is below 2^31. -/
def shs_time_reached (now deadline : Nat) : Bool :=
  decide ((now + (4294967296 - deadline % 4294967296)) % 4294967296 < 2147483648)

/-- shs_mv_cooldown_tick from shs01.c (lines 389-405). -/
def shs_mv_cooldown_tick (s : ShsState) (now_ms : Nat) : ShsState :=
  if s.movementCooldownSec = 0 ∨ s.mvCooldownActive = false then s
  else if shs_time_reached now_ms s.mvCooldownDeadlineMs = true then
    if s.lastMovingSample = false then
      { s with movingState := false, mvCooldownActive := false }
    else
      { s with mvCooldownDeadlineMs :=
          (now_ms + s.movementCooldownSec * 1000) % 4294967296 }
  else s

/-- shs_process_sensor_state from shs01.c (lines 408-448); `now` is the
value esp_log_timestamp() returns inside the function. -/
def shs_process_sensor_state (s : ShsState) (state_byte : Nat) (now : Nat) : ShsState :=
  let moving := decide (state_byte &&& 1 ≠ 0)
  let stat := decide (state_byte &&& 2 ≠ 0)
  let presence := decide (state_byte &&& 3 ≠ 0)
  let s1 := { s with lastMovingSample := moving }
  let s2 :=
    if s1.movementCooldownSec = 0 then
      { s1 with movingState := moving }
    else if s1.mvCooldownActive = false then
      (if moving = true ∧ s1.movingState = false then
        { s1 with movingState := true, mvCooldownActive := true,
                  mvCooldownDeadlineMs :=
                    (now + s1.movementCooldownSec * 1000) % 4294967296 }
      else s1)
    else shs_mv_cooldown_tick s1 now
  { s2 with staticState := stat, occupancyState := presence }

/-- shs_cfg_sync_sens_proxies from shs01.c (lines 118-124). -/
def shs_cfg_sync_sens_proxies (s : ShsState) : ShsState :=
  let mv0 := (s.movingSens0_100 + 5) / 10
  let mv := if mv0 > 10 then 10 else mv0
  let st0 := (s.staticSens0_100 + 5) / 10
  let st := if st0 > 10 then 10 else st0
  { s with sensMv0_10 := mv, sensSt0_10 := st }

/-- shs_cfg_load_from_nvs from shs01.c (lines 126-156): each argument is
the stored value for the corresponding key, or none when the key is absent. -/
def shs_cfg_load_from_nvs (s : ShsState)
    (mvCd occCd mvSens stSens mvGate stGate : Option Nat) : ShsState :=
  let s := match mvCd with
    | some u => { s with movementCooldownSec :=
        if u > SHS_COOLDOWN_MAX_SEC then SHS_COOLDOWN_MAX_SEC else u }
    | none => s
  let s := match occCd with
    | some u => { s with occupancyClearSec := u }
    | none => s
  let s := match mvSens with
    | some u => { s with movingSens0_100 := if u > 100 then 100 else u }
    | none => s
  let s := match stSens with
    | some u => { s with staticSens0_100 := if u > 100 then 100 else u }
    | none => s
  let s := match mvGate with
    | some u => { s with movingMaxGate := if u > 8 then 8 else u }
    | none => s
  let s := match stGate with
    | some u => { s with staticMaxGate :=
        if u < 2 then 2 else if u > 8 then 8 else u }
    | none => s
  shs_cfg_sync_sens_proxies s

/-- shs_zb_attribute_handler from shs01.c (lines 294-378), restricted to the
custom config cluster writes (EP1, cluster 0xFDCD, all U16); `now` is the
esp_log_timestamp() value read when arming the cooldown timer.  The NVS save
enqueues and the LD2410 command pushes are side effects modelled separately. -/
def shs_zb_attribute_handler (s : ShsState) (attrId v now : Nat) : ShsState :=
  if attrId = SHS_ATTR_MOVEMENT_COOLDOWN then
    let v := if v > SHS_COOLDOWN_MAX_SEC then SHS_COOLDOWN_MAX_SEC else v
    let wasZero := s.movementCooldownSec = 0
    let s := { s with movementCooldownSec := v }
    if s.movementCooldownSec = 0 then
      { s with mvCooldownActive := false }
    else if wasZero ∧ s.movingState = true ∧ s.mvCooldownActive = false then
      { s with mvCooldownActive := true,
               mvCooldownDeadlineMs :=
                 (now + s.movementCooldownSec * 1000) % 4294967296 }
    else s
  else if attrId = SHS_ATTR_OCC_CLEAR_COOLDOWN then
    { s with occupancyClearSec := v }
  else if attrId = SHS_ATTR_MOVING_SENS_0_10 then
    let v := if v > 10 then 10 else v
    { s with sensMv0_10 := v, movingSens0_100 := (v * 10) % 256 }
  else if attrId = SHS_ATTR_STATIC_SENS_0_10 then
    let v := if v > 10 then 10 else v
    { s with sensSt0_10 := v, staticSens0_100 := (v * 10) % 256 }
  else if attrId = SHS_ATTR_MOVING_MAX_GATE then
    let v := if v > 8 then 8 else v
    { s with movingMaxGate := v }
  else if attrId = SHS_ATTR_STATIC_MAX_GATE then
    let v := if v < 2 then 2 else if v > 8 then 8 else v
    { s with staticMaxGate := v }
  else s

/-! ## Event traces for the presence state machine

The LD2410 task processes decoded sensor-state bytes and, once per loop
iteration, calls shs_mv_cooldown_tick with the current timestamp. -/

inductive ShsEvent where
  | sample (state_byte : Nat) (now : Nat)
  | tick (now : Nat)

def shs_event_time : ShsEvent → Nat
  | .sample _ now => now
  | .tick now => now

def shs_step : ShsState → ShsEvent → ShsState
  | s, .sample b now => shs_process_sensor_state s b now
  | s, .tick now => shs_mv_cooldown_tick s now

def shs_run (s : ShsState) : List ShsEvent → ShsState
  | [] => s
  | e :: es => shs_run (shs_step s e) es

/-! ## LD2410 frame decoder (shs_ld2410_task, shs01.c lines 450-521)

The accumulation buffer `acc[SHS_UART_ACC_BUF_SIZE]` with its `start` offset
and `acc_len` is modelled as the pair of the physical offset `start` and the
list of pending bytes `acc[start .. start+acc_len)`.  The inner scan loop is
written as a recursion whose fuel bounds the number of loop iterations; every
iteration that recurses consumes at least one byte, so fuel `acc.length`
always suffices, matching the C loop exactly. -/

/-- Header occurrence test: positions h, h+1, h+2, h+3 hold the 4-byte
receive header.  Out-of-range reads default to 0, which never matches, so
an occurrence implies the four bytes are in range. -/
def ShsHdrAt (acc : List Nat) (h : Nat) : Prop :=
  acc.getD h 0 = SHS_LD2410_HDR_RX0 ∧ acc.getD (h+1) 0 = SHS_LD2410_HDR_RX1 ∧
  acc.getD (h+2) 0 = SHS_LD2410_HDR_RX2 ∧ acc.getD (h+3) 0 = SHS_LD2410_HDR_RX3

instance (acc : List Nat) (h : Nat) : Decidable (ShsHdrAt acc h) := by
  unfold ShsHdrAt
  infer_instance

/-- Header search loop of shs_ld2410_task (lines 476-483): advance h while
h+4 <= acc_len and the header does not start at h. -/
def shs_find_hdr (acc : List Nat) : Nat → Nat → Nat
  | h, 0 => h
  | h, fuel+1 =>
    if h + 4 ≤ acc.length then
      if ShsHdrAt acc h then h else shs_find_hdr acc (h+1) fuel
    else h

/-- Inner scan loop of shs_ld2410_task (lines 473-516).  Returns the bytes
left pending in the buffer and the sequence of state bytes handed to
shs_process_sensor_state, in order. -/
def shs_ld2410_scan : Nat → List Nat → Nat → List Nat × List Nat
  | 0, acc, _ => (acc, [])
  | fuel+1, acc, i =>
    if SHS_LD2410_MIN_FRAME_BYTES ≤ acc.length - i then
      let h := shs_find_hdr acc i acc.length
      if acc.length < h + SHS_LD2410_MIN_FRAME_BYTES then (acc, [])
      else if acc.length ≤ h then (acc, [])
      else if 10 ≤ acc.length - h then
        let le_len := acc.getD (h+4) 0 ||| (acc.getD (h+5) 0 <<< 8)
        let total := 4 + 2 + le_len + 4
        if h + total ≤ acc.length ∧
            acc.getD (h+total-4) 0 = SHS_LD2410_TAIL_RX0 ∧
            acc.getD (h+total-3) 0 = SHS_LD2410_TAIL_RX1 ∧
            acc.getD (h+total-2) 0 = SHS_LD2410_TAIL_RX2 ∧
            acc.getD (h+total-1) 0 = SHS_LD2410_TAIL_RX3 then
          let r := shs_ld2410_scan fuel (acc.drop (h + total)) 0
          (r.1, acc.getD (h+8) 0 :: r.2)
        else
          let r := shs_ld2410_scan fuel (acc.drop (h + SHS_LD2410_MIN_FRAME_BYTES)) 0
          (r.1, acc.getD (h+8) 0 :: r.2)
      else
        let r := shs_ld2410_scan fuel (acc.drop (h + SHS_LD2410_MIN_FRAME_BYTES)) 0
        (r.1, acc.getD (h+8) 0 :: r.2)
    else (acc, [])

/-- One iteration of the shs_ld2410_task read loop (lines 457-517) for a
read that returned the bytes `rx`: append (compacting, and truncating to the
free space when even compaction leaves too little room), then scan. -/
def shs_ld2410_feed (st : Nat × List Nat) (rx : List Nat) :
    (Nat × List Nat) × List Nat :=
  if rx.length = 0 then (st, [])
  else
    let start := if SHS_UART_ACC_BUF_SIZE < st.1 + st.2.length + rx.length then 0 else st.1
    let acc := if SHS_UART_ACC_BUF_SIZE < start + st.2.length + rx.length
               then st.2 ++ rx.take (SHS_UART_ACC_BUF_SIZE - (start + st.2.length))
               else st.2 ++ rx
    let r := shs_ld2410_scan acc.length acc 0
    ((start + (acc.length - r.1.length), r.1), r.2)

/-- Successive read-loop iterations over a list of uart reads, collecting
all emitted state bytes. -/
def shs_ld2410_run (st : Nat × List Nat) : List (List Nat) → (Nat × List Nat) × List Nat
  | [] => (st, [])
  | rx :: rest =>
    let r := shs_ld2410_feed st rx
    let r2 := shs_ld2410_run r.1 rest
    (r2.1, r.2 ++ r2.2)

/-- A correctly framed receive packet: 4-byte receive header, little-endian
16-bit payload length, payload, 4-byte receive trailer. -/
def shs_ld2410_frame (payload : List Nat) : List Nat :=
  [SHS_LD2410_HDR_RX0, SHS_LD2410_HDR_RX1, SHS_LD2410_HDR_RX2, SHS_LD2410_HDR_RX3,
   payload.length % 256, payload.length / 256] ++ payload ++
  [SHS_LD2410_TAIL_RX0, SHS_LD2410_TAIL_RX1, SHS_LD2410_TAIL_RX2, SHS_LD2410_TAIL_RX3]

/-! ## NVS save worker (shs_save_worker, shs01.c lines 755-806)

One loop iteration is a pair of the tick count `now` and the message received
this iteration, if any (`none` when xQueueReceive timed out).  NVS writes are
collected in a log of (key, value) pairs.  TickType_t arithmetic is taken at
one tick per millisecond, so the debounce threshold pdMS_TO_TICKS(500) is 500;
schedules are assumed not to wrap the 32-bit tick counter mid-run, making the
unsigned difference `now - last` plain truncated subtraction. -/

inductive SaveKey where
  | mvCd | occCd | mvSens | stSens | mvGate | stGate
deriving DecidableEq

inductive SaveEvt where
  | immediateU16 | debSensMove | debSensStatic | debGateMove | debGateStatic
deriving DecidableEq

structure SaveMsg where
  type : SaveEvt
  u16 : Nat

/-- Per-field debounce state of shs_save_worker: the pending flag, the tick
count of the last update, and the value to flush. -/
structure SaveField where
  pend : Bool
  lastTick : Nat
  val : Nat

structure SaveWorkerState where
  mvSens : SaveField
  stSens : SaveField
  mvGate : SaveField
  stGate : SaveField
  gMvCd : Nat
  gOccCd : Nat
  writes : List (SaveKey × Nat)

/-- Message dispatch of shs_save_worker (lines 764-786).  An immediate
message writes the current global cooldown value at once; a debounce message
records the value (cast to uint8) and stamps the field. -/
def shs_worker_receive (w : SaveWorkerState) (now : Nat) (m : SaveMsg) : SaveWorkerState :=
  match m.type with
  | .immediateU16 =>
      if m.u16 >>> 8 = SHS_ATTR_MOVEMENT_COOLDOWN then
        { w with writes := w.writes ++ [(SaveKey.mvCd, w.gMvCd)] }
      else if m.u16 >>> 8 = SHS_ATTR_OCC_CLEAR_COOLDOWN then
        { w with writes := w.writes ++ [(SaveKey.occCd, w.gOccCd)] }
      else w
  | .debSensMove => { w with mvSens := ⟨true, now, m.u16 % 256⟩ }
  | .debSensStatic => { w with stSens := ⟨true, now, m.u16 % 256⟩ }
  | .debGateMove => { w with mvGate := ⟨true, now, m.u16 % 256⟩ }
  | .debGateStatic => { w with stGate := ⟨true, now, m.u16 % 256⟩ }

/-- Flush check for one debounced field (lines 789-804): write and clear the
pending flag once the field has been quiet for the debounce window. -/
def shs_worker_flush_one (f : SaveField) (now : Nat) (k : SaveKey)
    (ws : List (SaveKey × Nat)) : SaveField × List (SaveKey × Nat) :=
  if f.pend = true ∧ SHS_NVS_DEBOUNCE_MS ≤ now - f.lastTick then
    (⟨false, f.lastTick, f.val⟩, ws ++ [(k, f.val)])
  else (f, ws)

/-- One iteration of the shs_save_worker loop: optional receive, then the
four flush checks in source order. -/
def shs_save_worker_step (w : SaveWorkerState) (it : Nat × Option SaveMsg) : SaveWorkerState :=
  let now := it.1
  let w := match it.2 with
    | some m => shs_worker_receive w now m
    | none => w
  let r1 := shs_worker_flush_one w.mvSens now SaveKey.mvSens w.writes
  let w := { w with mvSens := r1.1, writes := r1.2 }
  let r2 := shs_worker_flush_one w.stSens now SaveKey.stSens w.writes
  let w := { w with stSens := r2.1, writes := r2.2 }
  let r3 := shs_worker_flush_one w.mvGate now SaveKey.mvGate w.writes
  let w := { w with mvGate := r3.1, writes := r3.2 }
  let r4 := shs_worker_flush_one w.stGate now SaveKey.stGate w.writes
  { w with stGate := r4.1, writes := r4.2 }

def shs_save_worker_run (w : SaveWorkerState) : List (Nat × Option SaveMsg) → SaveWorkerState
  | [] => w
  | it :: its => shs_save_worker_run (shs_save_worker_step w it) its

/-! ### Single-field projection of the worker

Helper model used to prove the debounce property once and transfer it to the
worker: the evolution of one debounced field, where an iteration is the tick
count plus the value requested for this field, if any. -/

def shs_field_step (f : SaveField) (it : Nat × Option Nat) : SaveField × Option Nat :=
  let f := match it.2 with
    | some v => (⟨true, it.1, v % 256⟩ : SaveField)
    | none => f
  if f.pend = true ∧ SHS_NVS_DEBOUNCE_MS ≤ it.1 - f.lastTick then
    (⟨false, f.lastTick, f.val⟩, some f.val)
  else (f, none)

def shs_field_run (f : SaveField) : List (Nat × Option Nat) → SaveField × List Nat
  | [] => (f, [])
  | it :: its =>
    let r := shs_field_step f it
    let r2 := shs_field_run r.1 its
    (r2.1, r.2.toList ++ r2.2)

/-- The four debounced NVS fields of shs_save_worker (moving and static,
sensitivity and gate). -/
def shs_deb_keys : List SaveKey :=
  [SaveKey.mvSens, SaveKey.stSens, SaveKey.mvGate, SaveKey.stGate]

/-- The debounce message type that targets a given debounced field. -/
def shs_key_evt : SaveKey → SaveEvt
  | SaveKey.mvSens => SaveEvt.debSensMove
  | SaveKey.stSens => SaveEvt.debSensStatic
  | SaveKey.mvGate => SaveEvt.debGateMove
  | SaveKey.stGate => SaveEvt.debGateStatic
  | SaveKey.mvCd => SaveEvt.immediateU16
  | SaveKey.occCd => SaveEvt.immediateU16

/-- The debounce state the worker keeps for a given debounced field. -/
def shs_field_get (w : SaveWorkerState) : SaveKey → SaveField
  | SaveKey.mvSens => w.mvSens
  | SaveKey.stSens => w.stSens
  | SaveKey.mvGate => w.mvGate
  | SaveKey.stGate => w.stGate
  | SaveKey.mvCd => w.mvSens
  | SaveKey.occCd => w.mvSens

/-- Projection of a worker schedule onto one debounced field: each iteration
keeps its tick count and the value requested for that field, if any. -/
def shs_proj_field (k : SaveKey) (sched : List (Nat × Option SaveMsg)) :
    List (Nat × Option Nat) :=
  sched.map (fun it => (it.1,
    match it.2 with
    | some m => if m.type = shs_key_evt k then some m.u16 else none
    | none => none))

/-! ## Helper lemmas -/

/-- Unwrapped view of shs_time_reached: when the two instants are within
half the counter range of each other, the wrapped test agrees with ≤ on the
unwrapped values. -/
theorem shs_time_reached_mod_eq_decide (N D : Nat)
    (h1 : D ≤ N → N - D < 2147483648) (h2 : N ≤ D → D - N < 2147483648) :
    shs_time_reached (N % 4294967296) (D % 4294967296) = decide (D ≤ N) := by
  simp only [shs_time_reached, decide_eq_decide]
  omega

/-- A deadline strictly in the future (both instants below 2^31) is not
reached. -/
theorem shs_time_reached_eq_false_of_lt (now deadline : Nat)
    (h : now < deadline) (hd : deadline < 2147483648) :
    shs_time_reached now deadline = false := by
  simp only [shs_time_reached, decide_eq_false_iff_not, not_lt]
  omega

/-- The presence bit pair: bit0-or-bit1 set is the same as the low two bits
being nonzero. -/
theorem shs_presence_bits (b : Nat) :
    decide (b &&& 3 ≠ 0) = (decide (b &&& 1 ≠ 0) || decide (b &&& 2 ≠ 0)) := by
  have h3 : b &&& 3 = b % 4 := by
    have h := Nat.and_pow_two_sub_one_eq_mod b 2
    norm_num at h
    exact h
  have h1 : b &&& 1 = b % 2 := Nat.and_one_is_mod b
  have h2 : b &&& 2 = b % 4 &&& 2 := by
    calc b &&& 2 = b &&& (3 &&& 2) := by rw [show (3 : Nat) &&& 2 = 2 by decide]
    _ = (b &&& 3) &&& 2 := (Nat.and_assoc b 3 2).symm
    _ = b % 4 &&& 2 := by rw [h3]
  have hb2 : b % 2 = b % 4 % 2 := by omega
  rw [h3, h1, h2, hb2]
  have hr : b % 4 < 4 := Nat.mod_lt _ (by norm_num)
  set r := b % 4 with hrdef
  interval_cases r <;> decide

/-! ## Claim theorems -/

/-- C10 (confirmed): for 32-bit millisecond timestamps whose distance in
modulo-2^32 arithmetic is below 2^31 (stated via unwrapped instants N and D
within 2^31 of each other), shs_time_reached returns true exactly when now
is at or after the deadline in wrap-around order. -/
theorem shs_time_reached_wraparound (N D : Nat)
    (h1 : D ≤ N → N - D < 2147483648) (h2 : N ≤ D → D - N < 2147483648) :
    shs_time_reached (N % 4294967296) (D % 4294967296) = decide (D ≤ N) := by
  simp only [shs_time_reached, decide_eq_decide]
  omega

/-- Witness for C10: a deadline armed just before the uptime counter wraps
is detected as reached just after the wrap. -/
theorem shs_time_reached_wraparound_witness :
    shs_time_reached (4294968000 % 4294967296) (4294967000 % 4294967296)
      = decide (4294967000 ≤ 4294968000) :=
  shs_time_reached_wraparound 4294968000 4294967000 (by decide) (by decide)

/-- C1 (corrected): the claim is false on the code: shs_process_sensor_state
publishes occupancy from the raw presence bits of the current state byte
(state_byte & 0x03), not from the published moving OR static signals, and
shs_mv_cooldown_tick never updates occupancy.  Concretely, with cooldown 5 s,
a rising moving sample followed by a raw byte 0x00 leaves moving held true by
the cooldown while occupancy is published false. -/
theorem shs_occupancy_or_violated :
    ((shs_process_sensor_state
        (shs_process_sensor_state ({ movementCooldownSec := 5 } : ShsState) 1 0)
        0 1000).movingState = true)
  ∧ ((shs_process_sensor_state
        (shs_process_sensor_state ({ movementCooldownSec := 5 } : ShsState) 1 0)
        0 1000).staticState = false)
  ∧ ((shs_process_sensor_state
        (shs_process_sensor_state ({ movementCooldownSec := 5 } : ShsState) 1 0)
        0 1000).occupancyState = false) := by
  decide

/-- C1 (amended): after every processed sensor-state event the published
occupancy equals raw moving OR raw static of that event's state byte (not
the published moving OR static), and a cooldown tick never changes the
published occupancy; so while cooldown holds moving true and the raw byte
reports no targets, occupancy is false. -/
theorem shs_occupancy_tracks_raw_presence :
    (∀ (s : ShsState) (b now : Nat),
      (shs_process_sensor_state s b now).occupancyState
        = (decide (b &&& 1 ≠ 0) || decide (b &&& 2 ≠ 0)))
  ∧ (∀ (s : ShsState) (now : Nat),
      (shs_mv_cooldown_tick s now).occupancyState = s.occupancyState) := by
  constructor
  · intro s b now
    rw [← shs_presence_bits]
    rfl
  · intro s now
    unfold shs_mv_cooldown_tick
    split_ifs <;> rfl

/-- While the cooldown is armed and the event's timestamp has not reached the
deadline, one step preserves the hold: cooldown seconds, the armed flag, the
published moving signal and the deadline are unchanged. -/
theorem shs_step_preserves_hold (s : ShsState) (e : ShsEvent)
    (hcd : s.movementCooldownSec ≠ 0) (hact : s.mvCooldownActive = true)
    (hmov : s.movingState = true)
    (hnr : shs_time_reached (shs_event_time e) s.mvCooldownDeadlineMs = false) :
    (shs_step s e).movementCooldownSec = s.movementCooldownSec
    ∧ (shs_step s e).mvCooldownActive = true
    ∧ (shs_step s e).movingState = true
    ∧ (shs_step s e).mvCooldownDeadlineMs = s.mvCooldownDeadlineMs := by
  cases e with
  | tick now =>
    simp only [shs_event_time] at hnr
    simp [shs_step, shs_mv_cooldown_tick, hcd, hact, hmov, hnr]
  | sample b now =>
    simp only [shs_event_time] at hnr
    simp [shs_step, shs_process_sensor_state, shs_mv_cooldown_tick, hcd, hact, hmov, hnr]

/-- While the cooldown is armed with a deadline below 2^31 and every event in
the trace happens strictly before the deadline, the published moving signal
stays true throughout. -/
theorem shs_run_moving_held (evs : List ShsEvent) :
    ∀ (s : ShsState),
    s.movementCooldownSec ≠ 0 → s.mvCooldownActive = true → s.movingState = true →
    s.mvCooldownDeadlineMs < 2147483648 →
    (∀ e ∈ evs, shs_event_time e < s.mvCooldownDeadlineMs) →
    (shs_run s evs).movingState = true := by
  induction evs with
  | nil =>
    intro s _ _ hmov _ _
    exact hmov
  | cons e es ih =>
    intro s hcd hact hmov hdl hev
    have hnr : shs_time_reached (shs_event_time e) s.mvCooldownDeadlineMs = false :=
      shs_time_reached_eq_false_of_lt _ _ (hev e (by simp)) hdl
    obtain ⟨h1, h2, h3, h4⟩ := shs_step_preserves_hold s e hcd hact hmov hnr
    show (shs_run (shs_step s e) es).movingState = true
    exact ih (shs_step s e) (by rw [h1]; exact hcd) h2 h3 (by rw [h4]; exact hdl)
      (by intro e2 he2; rw [h4]; exact hev e2 (by simp [he2]))

/-- C2 (corrected): the claim is false on the code.  The cooldown deadline is
only extended when a tick fires at or after it with the last raw sample still
positive; a positive sample arriving before the deadline does not move it.
Even with samples every 2 s as in the spec scenario - samples moving=true at
t=0 and t=2000, moving=false at t=4000 - the tick at t=5000 publishes
moving=false only 3000 ms after the last positive sample, less than the
claimed 5000 ms. -/
theorem shs_cooldown_hold_violated :
    (shs_run ({ movementCooldownSec := 5 } : ShsState)
        [.sample 1 0, .sample 1 2000]).movingState = true
  ∧ (shs_run ({ movementCooldownSec := 5 } : ShsState)
        [.sample 1 0, .sample 1 2000, .sample 0 4000, .tick 5000]).movingState = false
  ∧ 5000 - 2000 < 5000 := by
  decide

/-- C2 (amended): with cooldown 5 s, a rising moving sample publishes
moving=true immediately and the signal stays true for at least 5 s after the
rising sample (every event earlier than rise + 5000 ms leaves it true); it
transitions to false exactly at a cooldown tick at or after the armed
deadline whose last raw moving sample was negative. -/
theorem shs_moving_hold_after_rising :
    (∀ (s : ShsState) (b t : Nat) (evs : List ShsEvent),
      s.movementCooldownSec = 5 →
      s.mvCooldownActive = false →
      s.movingState = false →
      b &&& 1 ≠ 0 →
      t + 5000 < 2147483648 →
      (∀ e ∈ evs, shs_event_time e < t + 5000) →
      (shs_process_sensor_state s b t).movingState = true
      ∧ (shs_run (shs_process_sensor_state s b t) evs).movingState = true)
  ∧ (∀ (s : ShsState) (now : Nat),
      s.movementCooldownSec ≠ 0 →
      s.mvCooldownActive = true →
      s.lastMovingSample = false →
      shs_time_reached now s.mvCooldownDeadlineMs = true →
      (shs_mv_cooldown_tick s now).movingState = false
      ∧ (shs_mv_cooldown_tick s now).mvCooldownActive = false) := by
  constructor
  · intro s b t evs hcd hact hmov hb ht hev
    have hb2 : b % 2 = 1 := by
      have hb3 := hb
      rw [Nat.and_one_is_mod] at hb3
      omega
    have hM : (shs_process_sensor_state s b t).movingState = true := by
      simp [shs_process_sensor_state, hcd, hact, hmov, hb2]
    have hC : (shs_process_sensor_state s b t).movementCooldownSec = 5 := by
      simp [shs_process_sensor_state, hcd, hact, hmov, hb2]
    have hA : (shs_process_sensor_state s b t).mvCooldownActive = true := by
      simp [shs_process_sensor_state, hcd, hact, hmov, hb2]
    have hD : (shs_process_sensor_state s b t).mvCooldownDeadlineMs = t + 5000 := by
      simp [shs_process_sensor_state, hcd, hact, hmov, hb2]
      omega
    refine ⟨hM, ?_⟩
    exact shs_run_moving_held evs _ (by rw [hC]; norm_num) hA hM (by rw [hD]; omega)
      (by intro e2 he2; rw [hD]; exact hev e2 he2)
  · intro s now hcd hact hlast htr
    constructor <;> simp [shs_mv_cooldown_tick, hcd, hact, hlast, htr]

/-- Witness for C2 (amended): a rising sample at t=0 with cooldown 5 s holds
moving true through events at 2000, 3000 and 4999 ms, and a tick at 6000 ms
against deadline 5000 with a negative last sample clears it. -/
theorem shs_moving_hold_after_rising_witness :
    ((shs_process_sensor_state ({ movementCooldownSec := 5 } : ShsState) 1 0).movingState = true
      ∧ (shs_run (shs_process_sensor_state ({ movementCooldownSec := 5 } : ShsState) 1 0)
          [.sample 1 2000, .sample 0 3000, .tick 4999]).movingState = true)
    ∧ ((shs_mv_cooldown_tick ({ movementCooldownSec := 5, movingState := true, mvCooldownActive := true, mvCooldownDeadlineMs := 5000 } : ShsState) 6000).movingState
            = false
       ∧ (shs_mv_cooldown_tick ({ movementCooldownSec := 5, movingState := true, mvCooldownActive := true, mvCooldownDeadlineMs := 5000 } : ShsState) 6000).mvCooldownActive
            = false) :=
  ⟨shs_moving_hold_after_rising.1 ({ movementCooldownSec := 5 } : ShsState) 1 0
      [.sample 1 2000, .sample 0 3000, .tick 4999] rfl rfl rfl (by decide) (by decide)
      (by intro e he; fin_cases he <;> decide),
   shs_moving_hold_after_rising.2 ({ movementCooldownSec := 5, movingState := true, mvCooldownActive := true, mvCooldownDeadlineMs := 5000 } : ShsState) 6000
      (by decide) rfl rfl (by decide)⟩

/-- C6 (confirmed): a cooldown write from zero to nonzero while moving is
published true and no timer is active arms the timer with deadline
now + cooldown seconds (in ms, mod 2^32); a write of zero deactivates any
timer; and after a zero write the next raw sample sets the published moving
signal directly to the raw moving bit with the timer still inactive. -/
theorem shs_cooldown_write_arm_disarm :
    (∀ (s : ShsState) (v now : Nat),
      s.movementCooldownSec = 0 → s.movingState = true → s.mvCooldownActive = false →
      0 < v →
      (shs_zb_attribute_handler s SHS_ATTR_MOVEMENT_COOLDOWN v now).mvCooldownActive = true
      ∧ (shs_zb_attribute_handler s SHS_ATTR_MOVEMENT_COOLDOWN v now).mvCooldownDeadlineMs
          = (now + (shs_zb_attribute_handler s SHS_ATTR_MOVEMENT_COOLDOWN v now).movementCooldownSec
              * 1000) % 4294967296
      ∧ 0 < (shs_zb_attribute_handler s SHS_ATTR_MOVEMENT_COOLDOWN v now).movementCooldownSec)
  ∧ (∀ (s : ShsState) (now : Nat),
      (shs_zb_attribute_handler s SHS_ATTR_MOVEMENT_COOLDOWN 0 now).mvCooldownActive = false)
  ∧ (∀ (s : ShsState) (now b now2 : Nat),
      (shs_process_sensor_state
        (shs_zb_attribute_handler s SHS_ATTR_MOVEMENT_COOLDOWN 0 now) b now2).movingState
        = decide (b &&& 1 ≠ 0)
      ∧ (shs_process_sensor_state
        (shs_zb_attribute_handler s SHS_ATTR_MOVEMENT_COOLDOWN 0 now) b now2).mvCooldownActive
        = false) := by
  refine ⟨?_, ?_, ?_⟩
  · intro s v now h0 hmov hact hv
    have hne : v ≠ 0 := hv.ne'
    have hres : shs_zb_attribute_handler s SHS_ATTR_MOVEMENT_COOLDOWN v now
        = { s with movementCooldownSec := if 300 < v then 300 else v,
                   mvCooldownActive := true,
                   mvCooldownDeadlineMs :=
                     (now + (if 300 < v then 300 else v) * 1000) % 4294967296 } := by
      by_cases hc : 300 < v <;>
        simp [shs_zb_attribute_handler, SHS_COOLDOWN_MAX_SEC, hc, hne, h0, hmov, hact]
    rw [hres]
    refine ⟨rfl, rfl, ?_⟩
    show 0 < (if 300 < v then 300 else v)
    split_ifs <;> omega
  · intro s now
    simp [shs_zb_attribute_handler, SHS_COOLDOWN_MAX_SEC]
  · intro s now b now2
    have hcd : (shs_zb_attribute_handler s SHS_ATTR_MOVEMENT_COOLDOWN 0 now).movementCooldownSec
        = 0 := by
      simp [shs_zb_attribute_handler, SHS_COOLDOWN_MAX_SEC]
    have hact2 : (shs_zb_attribute_handler s SHS_ATTR_MOVEMENT_COOLDOWN 0 now).mvCooldownActive
        = false := by
      simp [shs_zb_attribute_handler, SHS_COOLDOWN_MAX_SEC]
    constructor
    · simp [shs_process_sensor_state, hcd]
    · simp [shs_process_sensor_state, hcd, hact2]

/-- Witness for C6 at cooldown value 5, armed at time 100. -/
theorem shs_cooldown_write_arm_disarm_witness :
    (shs_zb_attribute_handler
      ({ movingState := true } : ShsState) SHS_ATTR_MOVEMENT_COOLDOWN 5 100).mvCooldownActive
      = true
    ∧ (shs_zb_attribute_handler
      ({ movingState := true } : ShsState) SHS_ATTR_MOVEMENT_COOLDOWN 5 100).mvCooldownDeadlineMs
      = (100 + (shs_zb_attribute_handler
          ({ movingState := true } : ShsState) SHS_ATTR_MOVEMENT_COOLDOWN 5 100).movementCooldownSec
          * 1000) % 4294967296
    ∧ 0 < (shs_zb_attribute_handler
      ({ movingState := true } : ShsState) SHS_ATTR_MOVEMENT_COOLDOWN 5 100).movementCooldownSec :=
  shs_cooldown_write_arm_disarm.1 ({ movingState := true } : ShsState) 5 100
    (by decide) (by decide) (by decide) (by decide)

/-- C7 (confirmed): every configuration write clamps to the field's range,
from the attribute protocol and from the NVS load, with the claimed boundary
values: static max gate 0 and 1 store 2, 9 stores 8; moving max gate 9
stores 8; occupancy-clear 400 is stored unchanged; movement cooldown 400
stores 300. -/
theorem shs_cfg_clamped_on_every_write :
    (∀ (s : ShsState) (v now : Nat),
       2 ≤ (shs_zb_attribute_handler s SHS_ATTR_STATIC_MAX_GATE v now).staticMaxGate
       ∧ (shs_zb_attribute_handler s SHS_ATTR_STATIC_MAX_GATE v now).staticMaxGate ≤ 8)
  ∧ (∀ (s : ShsState) (v now : Nat),
       (shs_zb_attribute_handler s SHS_ATTR_MOVING_MAX_GATE v now).movingMaxGate ≤ 8)
  ∧ (∀ (s : ShsState) (v now : Nat),
       (shs_zb_attribute_handler s SHS_ATTR_MOVEMENT_COOLDOWN v now).movementCooldownSec ≤ 300)
  ∧ (∀ (s : ShsState) (v now : Nat),
       (shs_zb_attribute_handler s SHS_ATTR_OCC_CLEAR_COOLDOWN v now).occupancyClearSec = v)
  ∧ (∀ (s : ShsState) (v now : Nat),
       (shs_zb_attribute_handler s SHS_ATTR_MOVING_SENS_0_10 v now).sensMv0_10 ≤ 10
       ∧ (shs_zb_attribute_handler s SHS_ATTR_MOVING_SENS_0_10 v now).movingSens0_100 ≤ 100)
  ∧ (∀ (s : ShsState) (v now : Nat),
       (shs_zb_attribute_handler s SHS_ATTR_STATIC_SENS_0_10 v now).sensSt0_10 ≤ 10
       ∧ (shs_zb_attribute_handler s SHS_ATTR_STATIC_SENS_0_10 v now).staticSens0_100 ≤ 100)
  ∧ (∀ (s : ShsState) (now : Nat),
       (shs_zb_attribute_handler s SHS_ATTR_STATIC_MAX_GATE 0 now).staticMaxGate = 2
       ∧ (shs_zb_attribute_handler s SHS_ATTR_STATIC_MAX_GATE 1 now).staticMaxGate = 2
       ∧ (shs_zb_attribute_handler s SHS_ATTR_STATIC_MAX_GATE 9 now).staticMaxGate = 8
       ∧ (shs_zb_attribute_handler s SHS_ATTR_MOVING_MAX_GATE 9 now).movingMaxGate = 8
       ∧ (shs_zb_attribute_handler s SHS_ATTR_OCC_CLEAR_COOLDOWN 400 now).occupancyClearSec = 400
       ∧ (shs_zb_attribute_handler s SHS_ATTR_MOVEMENT_COOLDOWN 400 now).movementCooldownSec = 300)
  ∧ (∀ (s : ShsState) (u : Nat),
       (shs_cfg_load_from_nvs s (some u) none none none none none).movementCooldownSec ≤ 300)
  ∧ (∀ (s : ShsState) (u : Nat),
       (shs_cfg_load_from_nvs s none (some u) none none none none).occupancyClearSec = u)
  ∧ (∀ (s : ShsState) (u : Nat),
       (shs_cfg_load_from_nvs s none none (some u) none none none).movingSens0_100 ≤ 100
       ∧ (shs_cfg_load_from_nvs s none none none (some u) none none).staticSens0_100 ≤ 100)
  ∧ (∀ (s : ShsState) (u : Nat),
       (shs_cfg_load_from_nvs s none none none none (some u) none).movingMaxGate ≤ 8)
  ∧ (∀ (s : ShsState) (u : Nat),
       2 ≤ (shs_cfg_load_from_nvs s none none none none none (some u)).staticMaxGate
       ∧ (shs_cfg_load_from_nvs s none none none none none (some u)).staticMaxGate ≤ 8) := by
  refine ⟨?_, ?_, ?_, ?_, ?_, ?_, ?_, ?_, ?_, ?_, ?_, ?_⟩ <;>
    intros <;>
    simp [shs_zb_attribute_handler, shs_cfg_load_from_nvs, shs_cfg_sync_sens_proxies,
      SHS_ATTR_MOVEMENT_COOLDOWN, SHS_ATTR_OCC_CLEAR_COOLDOWN, SHS_ATTR_MOVING_SENS_0_10,
      SHS_ATTR_STATIC_SENS_0_10, SHS_ATTR_MOVING_MAX_GATE, SHS_ATTR_STATIC_MAX_GATE,
      SHS_COOLDOWN_MAX_SEC, apply_ite ShsState.movementCooldownSec,
      apply_ite ShsState.occupancyClearSec, apply_ite ShsState.movingSens0_100,
      apply_ite ShsState.staticSens0_100, apply_ite ShsState.movingMaxGate,
      apply_ite ShsState.staticMaxGate, apply_ite ShsState.sensMv0_10,
      apply_ite ShsState.sensSt0_10] <;>
    first
      | omega
      | (split_ifs <;>
          first
            | omega
            | (rw [Nat.mod_eq_of_lt (by omega)]; omega))

/-- C8 (confirmed): the 0-100 primary sensitivity and the 0-10 proxy stay
consistent under both write paths: storing primary p (NVS load path) yields
proxy (p+5)/10 (round-half-up of p/10, at most 10 for p at most 100), and a
proxy write q yields primary q*10, each path updating both representations. -/
theorem shs_sensitivity_proxy_consistent :
    (∀ (s : ShsState) (p : Nat), p ≤ 100 →
      (shs_cfg_load_from_nvs s none none (some p) none none none).movingSens0_100 = p
      ∧ (shs_cfg_load_from_nvs s none none (some p) none none none).sensMv0_10 = (p + 5) / 10
      ∧ (p + 5) / 10 ≤ 10)
  ∧ (∀ (s : ShsState) (p : Nat), p ≤ 100 →
      (shs_cfg_load_from_nvs s none none none (some p) none none).staticSens0_100 = p
      ∧ (shs_cfg_load_from_nvs s none none none (some p) none none).sensSt0_10 = (p + 5) / 10)
  ∧ (∀ (s : ShsState) (q now : Nat), q ≤ 10 →
      (shs_zb_attribute_handler s SHS_ATTR_MOVING_SENS_0_10 q now).sensMv0_10 = q
      ∧ (shs_zb_attribute_handler s SHS_ATTR_MOVING_SENS_0_10 q now).movingSens0_100 = q * 10)
  ∧ (∀ (s : ShsState) (q now : Nat), q ≤ 10 →
      (shs_zb_attribute_handler s SHS_ATTR_STATIC_SENS_0_10 q now).sensSt0_10 = q
      ∧ (shs_zb_attribute_handler s SHS_ATTR_STATIC_SENS_0_10 q now).staticSens0_100 = q * 10) := by
  refine ⟨?_, ?_, ?_, ?_⟩
  · intro s p hp
    have hp' : ¬ p > 100 := by omega
    have h10 : ¬ (p + 5) / 10 > 10 := by omega
    simp [shs_cfg_load_from_nvs, shs_cfg_sync_sens_proxies, hp', h10]
    omega
  · intro s p hp
    have hp' : ¬ p > 100 := by omega
    have h10 : ¬ (p + 5) / 10 > 10 := by omega
    simp [shs_cfg_load_from_nvs, shs_cfg_sync_sens_proxies, hp', h10]
  · intro s q now hq
    have hq' : ¬ q > 10 := by omega
    simp [shs_zb_attribute_handler, SHS_ATTR_MOVING_SENS_0_10, SHS_ATTR_MOVEMENT_COOLDOWN,
      SHS_ATTR_OCC_CLEAR_COOLDOWN, hq', Nat.mod_eq_of_lt (show q * 10 < 256 by omega)]
  · intro s q now hq
    have hq' : ¬ q > 10 := by omega
    simp [shs_zb_attribute_handler, SHS_ATTR_STATIC_SENS_0_10, SHS_ATTR_MOVEMENT_COOLDOWN,
      SHS_ATTR_OCC_CLEAR_COOLDOWN, SHS_ATTR_MOVING_SENS_0_10, hq',
      Nat.mod_eq_of_lt (show q * 10 < 256 by omega)]

/-- Witness for C8 at primary 55 (proxy 6) and proxy 7 (primary 70). -/
theorem shs_sensitivity_proxy_consistent_witness :
    ((shs_cfg_load_from_nvs ({} : ShsState) none none (some 55) none none none).movingSens0_100 = 55
      ∧ (shs_cfg_load_from_nvs ({} : ShsState) none none (some 55) none none none).sensMv0_10
          = (55 + 5) / 10
      ∧ (55 + 5) / 10 ≤ 10)
    ∧ ((shs_zb_attribute_handler ({} : ShsState) SHS_ATTR_MOVING_SENS_0_10 7 0).sensMv0_10 = 7
      ∧ (shs_zb_attribute_handler ({} : ShsState) SHS_ATTR_MOVING_SENS_0_10 7 0).movingSens0_100
          = 7 * 10) :=
  ⟨shs_sensitivity_proxy_consistent.1 ({} : ShsState) 55 (by decide),
   shs_sensitivity_proxy_consistent.2.2.1 ({} : ShsState) 7 0 (by decide)⟩

/-! ## Decoder helper lemmas -/

theorem shs_getD_drop (l : List Nat) (k j : Nat) :
    (l.drop k).getD j 0 = l.getD (k + j) 0 := by
  simp [List.getD_eq_getElem?_getD, List.getElem?_drop]

theorem shs_getD_take (l : List Nat) (n j : Nat) (h : j < n) :
    (l.take n).getD j 0 = l.getD j 0 := by
  simp [List.getD_eq_getElem?_getD, List.getElem?_take_of_lt h]

theorem shs_getD_replicate_zero (n j : Nat) :
    (List.replicate n (0:Nat)).getD j 0 = 0 := by
  rw [List.getD_eq_getElem?_getD, List.getElem?_replicate]
  split <;> rfl

theorem shs_hdrAt_length (l : List Nat) (j : Nat) (h : ShsHdrAt l j) :
    j + 4 ≤ l.length := by
  by_contra hc
  have hd : l.getD (j+3) 0 = 0 := List.getD_eq_default _ _ (by omega)
  have h4 := h.2.2.2
  rw [hd] at h4
  exact absurd h4 (by decide)

theorem shs_hdrAt_of_drop (l : List Nat) (k j : Nat) (h : ShsHdrAt (l.drop k) j) :
    ShsHdrAt l (k + j) := by
  obtain ⟨h1, h2, h3, h4⟩ := h
  refine ⟨?_, ?_, ?_, ?_⟩
  · rw [← shs_getD_drop]
    exact h1
  · rw [show k + j + 1 = k + (j+1) by omega, ← shs_getD_drop]
    exact h2
  · rw [show k + j + 2 = k + (j+2) by omega, ← shs_getD_drop]
    exact h3
  · rw [show k + j + 3 = k + (j+3) by omega, ← shs_getD_drop]
    exact h4

theorem shs_hdrAt_of_take (l : List Nat) (n j : Nat) (h : ShsHdrAt (l.take n) j) :
    ShsHdrAt l j := by
  have hlen := shs_hdrAt_length _ _ h
  rw [List.length_take] at hlen
  obtain ⟨h1, h2, h3, h4⟩ := h
  refine ⟨?_, ?_, ?_, ?_⟩
  · rw [← shs_getD_take l n j (by omega)]
    exact h1
  · rw [← shs_getD_take l n (j+1) (by omega)]
    exact h2
  · rw [← shs_getD_take l n (j+2) (by omega)]
    exact h3
  · rw [← shs_getD_take l n (j+3) (by omega)]
    exact h4

theorem shs_no_hdr_replicate_zero (n : Nat) (j : Nat) :
    ¬ ShsHdrAt (List.replicate n (0:Nat)) j := by
  intro h
  have h1 := h.1
  rw [shs_getD_replicate_zero] at h1
  exact absurd h1 (by decide)

/-- When no header occurs at or after position i, the search loop stops at
the last position it may examine: len - 3 when it could start at all,
otherwise at i itself. -/
theorem shs_find_hdr_none (l : List Nat) :
    ∀ (fuel i : Nat), (∀ j, i ≤ j → ¬ ShsHdrAt l j) → l.length ≤ i + fuel + 3 →
    shs_find_hdr l i fuel = if i + 4 ≤ l.length then l.length - 3 else i := by
  intro fuel
  induction fuel with
  | zero =>
    intro i hno hlen
    rw [shs_find_hdr, if_neg (by omega)]
  | succ f ih =>
    intro i hno hlen
    rw [shs_find_hdr]
    by_cases h4 : i + 4 ≤ l.length
    · rw [if_pos h4, if_neg (hno i le_rfl)]
      rw [ih (i+1) (fun j hj => hno j (by omega)) (by omega)]
      by_cases h5 : i + 1 + 4 ≤ l.length
      · rw [if_pos h5, if_pos h4]
      · rw [if_neg h5, if_pos h4]
        omega
    · rw [if_neg h4, if_neg h4]

theorem shs_find_hdr_found (l : List Nat) (i f : Nat)
    (h4 : i + 4 ≤ l.length) (hh : ShsHdrAt l i) :
    shs_find_hdr l i (f+1) = i := by
  rw [shs_find_hdr, if_pos h4, if_pos hh]

theorem shs_ld2410_scan_nil (fuel i : Nat) : shs_ld2410_scan fuel [] i = ([], []) := by
  cases fuel with
  | zero => rfl
  | succ f =>
    rw [shs_ld2410_scan, if_neg (by simp [SHS_LD2410_MIN_FRAME_BYTES])]

/-- When the buffer holds no header anywhere, the scan retains every byte
and emits nothing. -/
theorem shs_ld2410_scan_no_hdr (fuel : Nat) (acc : List Nat) (i : Nat)
    (hno : ∀ j, ¬ ShsHdrAt acc j) :
    shs_ld2410_scan fuel acc i = (acc, []) := by
  cases fuel with
  | zero => rfl
  | succ f =>
    rw [shs_ld2410_scan]
    by_cases h9 : SHS_LD2410_MIN_FRAME_BYTES ≤ acc.length - i
    · rw [if_pos h9]
      have hmin : (9:Nat) ≤ acc.length - i := by
        simpa [SHS_LD2410_MIN_FRAME_BYTES] using h9
      have h4 : i + 4 ≤ acc.length := by omega
      have hfh : shs_find_hdr acc i acc.length = acc.length - 3 := by
        rw [shs_find_hdr_none acc acc.length i (fun j _ => hno j) (by omega), if_pos h4]
      rw [hfh]
      rw [if_pos (show acc.length < acc.length - 3 + SHS_LD2410_MIN_FRAME_BYTES by
        simp [SHS_LD2410_MIN_FRAME_BYTES]; omega)]
    · rw [if_neg h9]

/-- The scan only ever removes a prefix of the buffer: what remains is a
suffix of what was scanned. -/
theorem shs_ld2410_scan_drop (fuel : Nat) :
    ∀ (acc : List Nat) (i : Nat),
    ∃ k, k ≤ acc.length ∧ (shs_ld2410_scan fuel acc i).1 = acc.drop k := by
  induction fuel with
  | zero =>
    intro acc i
    exact ⟨0, by omega, by simp [shs_ld2410_scan]⟩
  | succ f ih =>
    intro acc i
    rw [shs_ld2410_scan]
    by_cases h9 : SHS_LD2410_MIN_FRAME_BYTES ≤ acc.length - i
    · rw [if_pos h9]
      have hmin : (9:Nat) ≤ acc.length - i := by
        simpa [SHS_LD2410_MIN_FRAME_BYTES] using h9
      dsimp only
      generalize shs_find_hdr acc i acc.length = h
      split_ifs with hc1 hc2 hc3 hc4
      · exact ⟨0, by omega, by simp⟩
      · exact ⟨0, by omega, by simp⟩
      · obtain ⟨k', hk', he⟩ := ih (acc.drop (h + (4 + 2 +
          (acc.getD (h+4) 0 ||| acc.getD (h+5) 0 <<< 8) + 4))) 0
        refine ⟨h + (4 + 2 + (acc.getD (h+4) 0 ||| acc.getD (h+5) 0 <<< 8) + 4) + k', ?_, ?_⟩
        · have := hc4.1
          simp only [List.length_drop] at hk'
          omega
        · simpa [List.drop_drop] using he
      · obtain ⟨k', hk', he⟩ := ih (acc.drop (h + SHS_LD2410_MIN_FRAME_BYTES)) 0
        refine ⟨h + SHS_LD2410_MIN_FRAME_BYTES + k', ?_, ?_⟩
        · simp only [List.length_drop, SHS_LD2410_MIN_FRAME_BYTES] at hk' ⊢
          simp only [SHS_LD2410_MIN_FRAME_BYTES] at hc1
          omega
        · simpa [List.drop_drop] using he
      · obtain ⟨k', hk', he⟩ := ih (acc.drop (h + SHS_LD2410_MIN_FRAME_BYTES)) 0
        refine ⟨h + SHS_LD2410_MIN_FRAME_BYTES + k', ?_, ?_⟩
        · simp only [List.length_drop, SHS_LD2410_MIN_FRAME_BYTES] at hk' ⊢
          simp only [SHS_LD2410_MIN_FRAME_BYTES] at hc1
          omega
        · simpa [List.drop_drop] using he
    · rw [if_neg h9]
      exact ⟨0, by omega, by simp⟩


/-- A read that fits without compaction and holds no header (together with
the pending bytes) is fully retained and emits nothing. -/
theorem shs_feed_garbage_keep (start : Nat) (acc rx : List Nat)
    (hno : ∀ j, ¬ ShsHdrAt (acc ++ rx) j)
    (hne : rx.length ≠ 0)
    (hstart : start + acc.length + rx.length ≤ 1024) :
    shs_ld2410_feed (start, acc) rx = ((start, acc ++ rx), []) := by
  have hcond : ¬ SHS_UART_ACC_BUF_SIZE < start + acc.length + rx.length := by
    simp only [SHS_UART_ACC_BUF_SIZE]
    omega
  rw [shs_ld2410_feed, if_neg hne]
  dsimp only
  rw [if_neg hcond, if_neg hcond]
  rw [shs_ld2410_scan_no_hdr _ _ _ hno]
  rw [Nat.sub_self, Nat.add_zero]

/-- A read arriving while the buffer is exactly full (start 0, 1024 pending
bytes, no header among them) is dropped entirely: compaction moves nothing
and the free space is zero. -/
theorem shs_feed_full_overflow (acc rx : List Nat)
    (hno : ∀ j, ¬ ShsHdrAt acc j)
    (hlen : acc.length = 1024) (hne : rx.length ≠ 0) :
    shs_ld2410_feed (0, acc) rx = ((0, acc), []) := by
  have hcond : SHS_UART_ACC_BUF_SIZE < 0 + acc.length + rx.length := by
    simp only [SHS_UART_ACC_BUF_SIZE]
    omega
  rw [shs_ld2410_feed, if_neg hne]
  dsimp only
  rw [if_pos hcond, if_pos hcond]
  rw [show SHS_UART_ACC_BUF_SIZE - (0 + acc.length) = 0 by
    simp only [SHS_UART_ACC_BUF_SIZE]; omega]
  rw [List.take_zero, List.append_nil]
  rw [shs_ld2410_scan_no_hdr _ _ _ hno]
  rw [Nat.sub_self, Nat.add_zero]

/-- C3 (corrected): the claim is false on the code.  When the accumulation
buffer already holds 1024 pending bytes (its capacity) and a new read
arrives, only the free space - here zero bytes - of the new read is copied;
the remaining newly arrived bytes are dropped without ever being consumed
into any frame.  Two garbage reads of 512 zero bytes fill the buffer, and a
following 1-byte read of 171 is lost: the final buffer is still the 1024
zeros, 171 is not in it, and no state event was ever emitted. -/
theorem shs_decoder_new_bytes_dropped :
    shs_ld2410_run (0, []) [List.replicate 512 0, List.replicate 512 0, [171]]
      = ((0, List.replicate 1024 0), [])
    ∧ (171:Nat) ∉ List.replicate 1024 (0:Nat) := by
  have hne512 : (List.replicate 512 (0:Nat)).length ≠ 0 := by
    rw [List.length_replicate]
    omega
  have happ : List.replicate 512 (0:Nat) ++ List.replicate 512 0 = List.replicate 1024 0 := by
    rw [← List.replicate_add]
  have h1 : shs_ld2410_feed (0, []) (List.replicate 512 0)
      = ((0, List.replicate 512 0), []) := by
    have := shs_feed_garbage_keep 0 [] (List.replicate 512 0)
      (by rw [List.nil_append]; exact fun j => shs_no_hdr_replicate_zero 512 j)
      hne512
      (by rw [List.length_replicate]; simp)
    rwa [List.nil_append] at this
  have h2 : shs_ld2410_feed (0, List.replicate 512 0) (List.replicate 512 0)
      = ((0, List.replicate 1024 0), []) := by
    have := shs_feed_garbage_keep 0 (List.replicate 512 0) (List.replicate 512 0)
      (by rw [happ]; exact fun j => shs_no_hdr_replicate_zero 1024 j)
      hne512
      (by rw [List.length_replicate])
    rwa [happ] at this
  have h3 : shs_ld2410_feed (0, List.replicate 1024 0) [171]
      = ((0, List.replicate 1024 0), []) := by
    exact shs_feed_full_overflow (List.replicate 1024 0) [171]
      (fun j => shs_no_hdr_replicate_zero 1024 j)
      (List.length_replicate 1024 0)
      (by rw [List.length_cons]; omega)
  constructor
  · rw [shs_ld2410_run, h1]
    rw [shs_ld2410_run, h2]
    rw [shs_ld2410_run, h3]
    rw [shs_ld2410_run]
    rfl
  · rw [List.mem_replicate]
    intro h
    exact absurd h.2 (by decide)

/-- C3 (amended): as long as the pending bytes plus the newly read bytes fit
the 1024-byte capacity, no byte is lost: the whole read is appended (the
compaction move is lossless) and the scan only consumes a prefix, so the
remaining buffer is a suffix of pending ++ new; in particular when no header
occurs anywhere in pending ++ new, everything is retained and no event is
emitted.  When pending plus new exceeds the capacity, the newly arrived
bytes beyond the free space are dropped (see the counterexample). -/
theorem shs_decoder_no_loss_within_capacity :
    (∀ (start : Nat) (acc rx : List Nat),
      acc.length + rx.length ≤ 1024 →
      ∃ k, k ≤ (acc ++ rx).length
        ∧ (shs_ld2410_feed (start, acc) rx).1.2 = (acc ++ rx).drop k)
  ∧ (∀ (start : Nat) (acc rx : List Nat),
      acc.length + rx.length ≤ 1024 →
      (∀ j, j < acc.length + rx.length → ¬ ShsHdrAt (acc ++ rx) j) →
      (shs_ld2410_feed (start, acc) rx).1.2 = acc ++ rx
      ∧ (shs_ld2410_feed (start, acc) rx).2 = []) := by
  have hacc : ∀ (start : Nat) (acc rx : List Nat), acc.length + rx.length ≤ 1024 →
      rx.length ≠ 0 →
      (shs_ld2410_feed (start, acc) rx).1.2
          = (shs_ld2410_scan (acc ++ rx).length (acc ++ rx) 0).1
      ∧ (shs_ld2410_feed (start, acc) rx).2
          = (shs_ld2410_scan (acc ++ rx).length (acc ++ rx) 0).2 := by
    intro start acc rx hfit hne
    rw [shs_ld2410_feed, if_neg hne]
    dsimp only
    by_cases hov : SHS_UART_ACC_BUF_SIZE < start + acc.length + rx.length
    · rw [if_pos hov]
      rw [if_neg (show ¬ SHS_UART_ACC_BUF_SIZE < 0 + acc.length + rx.length by
        simp only [SHS_UART_ACC_BUF_SIZE]; omega)]
      exact ⟨rfl, rfl⟩
    · rw [if_neg hov, if_neg hov]
      exact ⟨rfl, rfl⟩
  constructor
  · intro start acc rx hfit
    by_cases hne : rx.length = 0
    · have hrx : rx = [] := List.length_eq_zero.mp hne
      subst hrx
      refine ⟨0, by omega, ?_⟩
      rw [List.append_nil, List.drop_zero]
      rfl
    · obtain ⟨hb, _⟩ := hacc start acc rx hfit hne
      obtain ⟨k, hk, he⟩ := shs_ld2410_scan_drop (acc ++ rx).length (acc ++ rx) 0
      exact ⟨k, hk, by rw [hb, he]⟩
  · intro start acc rx hfit hno
    have hno2 : ∀ j, ¬ ShsHdrAt (acc ++ rx) j := by
      intro j
      by_cases hj : j < acc.length + rx.length
      · exact hno j hj
      · intro hh
        have hlen := shs_hdrAt_length _ _ hh
        rw [List.length_append] at hlen
        omega
    by_cases hne : rx.length = 0
    · have hrx : rx = [] := List.length_eq_zero.mp hne
      subst hrx
      exact ⟨by rw [List.append_nil]; rfl, rfl⟩
    · obtain ⟨hb, hev⟩ := hacc start acc rx hfit hne
      rw [hb, hev, shs_ld2410_scan_no_hdr _ _ _ hno2]
      exact ⟨rfl, rfl⟩

/-- Witness for C3 (amended): pending [1, 2] plus read [3] fits and holds no
header, so everything is retained and nothing is emitted. -/
theorem shs_decoder_no_loss_within_capacity_witness :
    (∃ k, k ≤ (([1, 2] ++ [3] : List Nat)).length
      ∧ (shs_ld2410_feed (0, [1, 2]) [3]).1.2 = (([1, 2] ++ [3] : List Nat)).drop k)
    ∧ ((shs_ld2410_feed (0, [1, 2]) [3]).1.2 = [1, 2] ++ [3]
      ∧ (shs_ld2410_feed (0, [1, 2]) [3]).2 = []) :=
  ⟨shs_decoder_no_loss_within_capacity.1 0 [1, 2] [3] (by decide),
   shs_decoder_no_loss_within_capacity.2 0 [1, 2] [3] (by decide) (by decide)⟩

/-! ## Frame round-trip lemmas -/

/-- Reassembling a 16-bit little-endian value from its two bytes, exactly as
the decoder does: low byte or-ed with the high byte shifted left by 8. -/
theorem shs_lor_low_high (p : Nat) : p % 256 ||| ((p / 256) <<< 8) = p := by
  apply Nat.eq_of_testBit_eq
  intro i
  rw [Nat.testBit_or]
  have hmod : (p % 256).testBit i = (decide (i < 8) && p.testBit i) := by
    rw [show (256:Nat) = 2^8 by norm_num, Nat.testBit_mod_two_pow]
  have hdiv : ∀ j, (p / 256).testBit j = p.testBit (8 + j) := by
    intro j
    rw [show (256:Nat) = 2^8 by norm_num, ← Nat.shiftRight_eq_div_pow,
      Nat.testBit_shiftRight]
  have hshift : ((p / 256) <<< 8).testBit i = (decide (i ≥ 8) && (p / 256).testBit (i - 8)) :=
    Nat.testBit_shiftLeft (p / 256)
  rw [hmod, hshift, hdiv]
  by_cases hi : i < 8
  · have h8 : ¬ (i ≥ 8) := by omega
    simp [hi, h8]
  · have h8 : i ≥ 8 := by omega
    have he : 8 + (i - 8) = i := by omega
    simp [hi, h8, he]

theorem shs_frame_length (P : List Nat) :
    (shs_ld2410_frame P).length = P.length + 10 := by
  simp [shs_ld2410_frame]

theorem shs_frame_getD_head (P : List Nat) :
    (shs_ld2410_frame P).getD 0 0 = SHS_LD2410_HDR_RX0
    ∧ (shs_ld2410_frame P).getD 1 0 = SHS_LD2410_HDR_RX1
    ∧ (shs_ld2410_frame P).getD 2 0 = SHS_LD2410_HDR_RX2
    ∧ (shs_ld2410_frame P).getD 3 0 = SHS_LD2410_HDR_RX3
    ∧ (shs_ld2410_frame P).getD 4 0 = P.length % 256
    ∧ (shs_ld2410_frame P).getD 5 0 = P.length / 256 := by
  refine ⟨?_, ?_, ?_, ?_, ?_, ?_⟩ <;> simp [shs_ld2410_frame]

theorem shs_frame_hdrAt_zero (P : List Nat) : ShsHdrAt (shs_ld2410_frame P) 0 := by
  obtain ⟨g0, g1, g2, g3, _, _⟩ := shs_frame_getD_head P
  exact ⟨g0, g1, g2, g3⟩

theorem shs_frame_getD_payload (P : List Nat) (k : Nat) (h6 : 6 ≤ k)
    (hk : k < 6 + P.length) :
    (shs_ld2410_frame P).getD k 0 = P.getD (k - 6) 0 := by
  rw [shs_ld2410_frame]
  rw [List.getD_append _ _ _ _ (by simp; omega)]
  rw [List.getD_append_right _ _ _ _ (by simp; omega)]
  norm_num

theorem shs_frame_getD_tail (P : List Nat) (t : Nat) :
    (shs_ld2410_frame P).getD (6 + P.length + t) 0
      = ([SHS_LD2410_TAIL_RX0, SHS_LD2410_TAIL_RX1,
          SHS_LD2410_TAIL_RX2, SHS_LD2410_TAIL_RX3] : List Nat).getD t 0 := by
  rw [shs_ld2410_frame]
  rw [List.getD_append_right _ _ _ _ (by simp; omega)]
  have hidx : 6 + P.length + t
      - ([SHS_LD2410_HDR_RX0, SHS_LD2410_HDR_RX1, SHS_LD2410_HDR_RX2, SHS_LD2410_HDR_RX3,
          P.length % 256, P.length / 256] ++ P).length = t := by
    simp
    omega
  rw [hidx]

/-- Scanning a whole well-formed frame from an empty starting buffer confirms
it: exactly one state event carrying payload byte 2 is emitted and the frame
is dropped entirely. -/
theorem shs_ld2410_scan_frame (P : List Nat) (h3 : 3 ≤ P.length)
    (hfit : P.length < 65536) :
    shs_ld2410_scan (P.length + 10) (shs_ld2410_frame P) 0 = ([], [P.getD 2 0]) := by
  have hlen : (shs_ld2410_frame P).length = P.length + 10 := shs_frame_length P
  obtain ⟨g0, g1, g2, g3, g4, g5⟩ := shs_frame_getD_head P
  have hfind : shs_find_hdr (shs_ld2410_frame P) 0 (shs_ld2410_frame P).length = 0 := by
    rw [show (shs_ld2410_frame P).length = (P.length + 9) + 1 by rw [hlen]]
    exact shs_find_hdr_found _ 0 _ (by rw [hlen]; omega) (shs_frame_hdrAt_zero P)
  rw [show P.length + 10 = (P.length + 9) + 1 by omega]
  rw [shs_ld2410_scan]
  rw [if_pos (show SHS_LD2410_MIN_FRAME_BYTES ≤ (shs_ld2410_frame P).length - 0 by
    simp only [SHS_LD2410_MIN_FRAME_BYTES]
    rw [hlen]
    omega)]
  simp only [hfind, Nat.zero_add, Nat.sub_zero]
  rw [if_neg (show ¬ (shs_ld2410_frame P).length < SHS_LD2410_MIN_FRAME_BYTES by
    simp only [SHS_LD2410_MIN_FRAME_BYTES]
    rw [hlen]
    omega)]
  rw [if_neg (show ¬ (shs_ld2410_frame P).length ≤ 0 by rw [hlen]; omega)]
  rw [if_pos (show 10 ≤ (shs_ld2410_frame P).length by rw [hlen]; omega)]
  rw [g4, g5, shs_lor_low_high]
  rw [show 4 + 2 + P.length + 4 = P.length + 10 by omega]
  have ht0 : (shs_ld2410_frame P).getD (P.length + 10 - 4) 0 = SHS_LD2410_TAIL_RX0 := by
    rw [show P.length + 10 - 4 = 6 + P.length + 0 by omega, shs_frame_getD_tail]
    rfl
  have ht1 : (shs_ld2410_frame P).getD (P.length + 10 - 3) 0 = SHS_LD2410_TAIL_RX1 := by
    rw [show P.length + 10 - 3 = 6 + P.length + 1 by omega, shs_frame_getD_tail]
    rfl
  have ht2 : (shs_ld2410_frame P).getD (P.length + 10 - 2) 0 = SHS_LD2410_TAIL_RX2 := by
    rw [show P.length + 10 - 2 = 6 + P.length + 2 by omega, shs_frame_getD_tail]
    rfl
  have ht3 : (shs_ld2410_frame P).getD (P.length + 10 - 1) 0 = SHS_LD2410_TAIL_RX3 := by
    rw [show P.length + 10 - 1 = 6 + P.length + 3 by omega, shs_frame_getD_tail]
    rfl
  rw [if_pos (show P.length + 10 ≤ (shs_ld2410_frame P).length
      ∧ (shs_ld2410_frame P).getD (P.length + 10 - 4) 0 = SHS_LD2410_TAIL_RX0
      ∧ (shs_ld2410_frame P).getD (P.length + 10 - 3) 0 = SHS_LD2410_TAIL_RX1
      ∧ (shs_ld2410_frame P).getD (P.length + 10 - 2) 0 = SHS_LD2410_TAIL_RX2
      ∧ (shs_ld2410_frame P).getD (P.length + 10 - 1) 0 = SHS_LD2410_TAIL_RX3 from
    ⟨by rw [hlen], ht0, ht1, ht2, ht3⟩)]
  have hdrop : (shs_ld2410_frame P).drop (P.length + 10) = [] :=
    List.drop_eq_nil_of_le (by rw [hlen])
  rw [hdrop, shs_ld2410_scan_nil]
  have hev : (shs_ld2410_frame P).getD 8 0 = P.getD 2 0 := by
    rw [shs_frame_getD_payload P 8 (by omega) (by omega)]
  rw [hev]

/-- One read-loop evaluation when the read is nonempty and everything fits
without compaction: append, scan, advance start by the consumed bytes. -/
theorem shs_feed_eval (start : Nat) (acc rx : List Nat) (hne : rx.length ≠ 0)
    (hfit : start + acc.length + rx.length ≤ 1024) :
    shs_ld2410_feed (start, acc) rx
      = ((start + ((acc ++ rx).length
            - (shs_ld2410_scan (acc ++ rx).length (acc ++ rx) 0).1.length),
          (shs_ld2410_scan (acc ++ rx).length (acc ++ rx) 0).1),
         (shs_ld2410_scan (acc ++ rx).length (acc ++ rx) 0).2) := by
  have hcond : ¬ SHS_UART_ACC_BUF_SIZE < start + acc.length + rx.length := by
    simp only [SHS_UART_ACC_BUF_SIZE]
    omega
  rw [shs_ld2410_feed, if_neg hne]
  dsimp only
  rw [if_neg hcond, if_neg hcond]

/-- C4 (confirmed): feeding one correctly framed receive packet carrying
state byte b (payload byte 2) to the decoder, from an empty accumulation
buffer, emits exactly one state event with mask b and leaves the buffer
empty (start advanced past the whole frame). -/
theorem shs_ld2410_frame_roundtrip (P : List Nat) (b : Nat)
    (h3 : 3 ≤ P.length) (hfit : P.length + 10 ≤ 512)
    (hb : P.getD 2 0 = b) :
    shs_ld2410_feed (0, []) (shs_ld2410_frame P) = ((P.length + 10, []), [b]) := by
  have hlen := shs_frame_length P
  have heval := shs_feed_eval 0 [] (shs_ld2410_frame P)
    (by rw [hlen]; omega)
    (by simp only [List.length_nil]; rw [hlen]; omega)
  rw [List.nil_append] at heval
  rw [heval, hlen, shs_ld2410_scan_frame P h3 (by omega), hb]
  simp

/-- Witness for C4: a 13-byte payload with state byte 7. -/
theorem shs_ld2410_frame_roundtrip_witness :
    shs_ld2410_feed (0, []) (shs_ld2410_frame [0, 0, 7, 0, 0, 0, 0, 0, 0, 0, 0, 0, 0])
      = ((23, []), [7]) :=
  shs_ld2410_frame_roundtrip [0, 0, 7, 0, 0, 0, 0, 0, 0, 0, 0, 0, 0] 7
    (by decide) (by decide) (by decide)

theorem shs_ld2410_scan_short (fuel : Nat) (acc : List Nat) (i : Nat)
    (h : acc.length < 9) : shs_ld2410_scan fuel acc i = (acc, []) := by
  cases fuel with
  | zero => rfl
  | succ f =>
    rw [shs_ld2410_scan,
      if_neg (show ¬ SHS_LD2410_MIN_FRAME_BYTES ≤ acc.length - i by
        simp only [SHS_LD2410_MIN_FRAME_BYTES]
        omega)]

theorem shs_hdrAt_take_intro (l : List Nat) (n j : Nat) (hj : j + 4 ≤ n)
    (h : ShsHdrAt l j) : ShsHdrAt (l.take n) j := by
  obtain ⟨h1, h2, h3, h4⟩ := h
  refine ⟨?_, ?_, ?_, ?_⟩
  · rw [shs_getD_take l n j (by omega)]
    exact h1
  · rw [shs_getD_take l n (j+1) (by omega)]
    exact h2
  · rw [shs_getD_take l n (j+2) (by omega)]
    exact h3
  · rw [shs_getD_take l n (j+3) (by omega)]
    exact h4

/-- C5 (corrected): the claim is false on the code.  When the first chunk
holds at least the 9-byte minimum of an (incomplete) frame, the decoder takes
the heuristic-skip path immediately; if the payload itself embeds the 4-byte
header pattern, the leftover bytes are misparsed as a second frame start and
a second (spurious) state event is emitted, so the split feed does not match
the whole feed.  Concretely, with payload [0,0,5,244,243,242,241,0,0,0,0,0,0],
feeding the whole frame emits exactly [5], but feeding its first 9 bytes and
then the rest emits [5, 0]. -/
theorem shs_split_feed_violated :
    ((shs_ld2410_frame [0, 0, 5, 244, 243, 242, 241, 0, 0, 0, 0, 0, 0]).take 9 ≠ [])
    ∧ ((shs_ld2410_frame [0, 0, 5, 244, 243, 242, 241, 0, 0, 0, 0, 0, 0]).drop 9 ≠ [])
    ∧ ((shs_ld2410_frame [0, 0, 5, 244, 243, 242, 241, 0, 0, 0, 0, 0, 0]).take 9
        ++ (shs_ld2410_frame [0, 0, 5, 244, 243, 242, 241, 0, 0, 0, 0, 0, 0]).drop 9
        = shs_ld2410_frame [0, 0, 5, 244, 243, 242, 241, 0, 0, 0, 0, 0, 0])
    ∧ (shs_ld2410_run (0, [])
        [shs_ld2410_frame [0, 0, 5, 244, 243, 242, 241, 0, 0, 0, 0, 0, 0]]).2 = [5]
    ∧ (shs_ld2410_run (0, [])
        [(shs_ld2410_frame [0, 0, 5, 244, 243, 242, 241, 0, 0, 0, 0, 0, 0]).take 9,
         (shs_ld2410_frame [0, 0, 5, 244, 243, 242, 241, 0, 0, 0, 0, 0, 0]).drop 9]).2
        = [5, 0] := by
  decide

/-- Scanning a strict prefix of at least 9 bytes of a frame whose payload
embeds no header pattern: the decoder finds the header, cannot confirm the
frame (not all bytes arrived), takes the heuristic skip - emitting the state
byte and dropping the 9-byte minimum frame - and retains the rest. -/
theorem shs_scan_take_prefix (P : List Nat) (n : Nat) (h3 : 3 ≤ P.length)
    (hnoemb : ∀ j, j < P.length + 10 → 1 ≤ j → ¬ ShsHdrAt (shs_ld2410_frame P) j)
    (h9 : 9 ≤ n) (hlt : n < P.length + 10) :
    shs_ld2410_scan n ((shs_ld2410_frame P).take n) 0
      = (((shs_ld2410_frame P).take n).drop 9, [P.getD 2 0]) := by
  have hlen : (shs_ld2410_frame P).length = P.length + 10 := shs_frame_length P
  have hclen : ((shs_ld2410_frame P).take n).length = n := by
    rw [List.length_take, hlen]
    omega
  have hno1 : ∀ j, 1 ≤ j → ¬ ShsHdrAt ((shs_ld2410_frame P).take n) j := by
    intro j hj hh
    have hfull := shs_hdrAt_of_take _ _ _ hh
    have hb := shs_hdrAt_length _ _ hh
    rw [hclen] at hb
    exact hnoemb j (by omega) hj hfull
  have hno9 : ∀ j, ¬ ShsHdrAt (((shs_ld2410_frame P).take n).drop 9) j := by
    intro j hh
    exact hno1 (9 + j) (by omega) (shs_hdrAt_of_drop _ _ _ hh)
  have hhdr0 : ShsHdrAt ((shs_ld2410_frame P).take n) 0 :=
    shs_hdrAt_take_intro _ n 0 (by omega) (shs_frame_hdrAt_zero P)
  have hg8 : ((shs_ld2410_frame P).take n).getD 8 0 = P.getD 2 0 := by
    rw [shs_getD_take _ _ _ (by omega)]
    exact shs_frame_getD_payload P 8 (by omega) (by omega)
  have hfind : shs_find_hdr ((shs_ld2410_frame P).take n)
      0 ((shs_ld2410_frame P).take n).length = 0 := by
    obtain ⟨m, hm⟩ : ∃ m, ((shs_ld2410_frame P).take n).length = m + 1 :=
      ⟨n - 1, by rw [hclen]; omega⟩
    rw [hm]
    exact shs_find_hdr_found _ 0 _ (by rw [hclen]; omega) hhdr0
  obtain ⟨m, rfl⟩ : ∃ m, n = m + 1 := ⟨n - 1, by omega⟩
  rw [shs_ld2410_scan]
  rw [if_pos (show SHS_LD2410_MIN_FRAME_BYTES
      ≤ ((shs_ld2410_frame P).take (m+1)).length - 0 by
    simp only [SHS_LD2410_MIN_FRAME_BYTES, hclen]
    omega)]
  simp only [hfind, Nat.zero_add, Nat.sub_zero, SHS_LD2410_MIN_FRAME_BYTES]
  rw [if_neg (show ¬ ((shs_ld2410_frame P).take (m+1)).length < 9 by
    rw [hclen]
    omega)]
  rw [if_neg (show ¬ ((shs_ld2410_frame P).take (m+1)).length ≤ 0 by
    rw [hclen]
    omega)]
  by_cases h10 : 10 ≤ ((shs_ld2410_frame P).take (m+1)).length
  · rw [if_pos h10]
    have hg4 : ((shs_ld2410_frame P).take (m+1)).getD 4 0 = P.length % 256 := by
      rw [shs_getD_take _ _ _ (by rw [hclen] at h10; omega)]
      exact (shs_frame_getD_head P).2.2.2.2.1
    have hg5 : ((shs_ld2410_frame P).take (m+1)).getD 5 0 = P.length / 256 := by
      rw [shs_getD_take _ _ _ (by rw [hclen] at h10; omega)]
      exact (shs_frame_getD_head P).2.2.2.2.2
    rw [hg4, hg5, shs_lor_low_high]
    rw [if_neg (show ¬ (4 + 2 + P.length + 4 ≤ ((shs_ld2410_frame P).take (m+1)).length
        ∧ ((shs_ld2410_frame P).take (m+1)).getD (4 + 2 + P.length + 4 - 4) 0
            = SHS_LD2410_TAIL_RX0
        ∧ ((shs_ld2410_frame P).take (m+1)).getD (4 + 2 + P.length + 4 - 3) 0
            = SHS_LD2410_TAIL_RX1
        ∧ ((shs_ld2410_frame P).take (m+1)).getD (4 + 2 + P.length + 4 - 2) 0
            = SHS_LD2410_TAIL_RX2
        ∧ ((shs_ld2410_frame P).take (m+1)).getD (4 + 2 + P.length + 4 - 1) 0
            = SHS_LD2410_TAIL_RX3) by
      intro hc
      have := hc.1
      rw [hclen] at this
      omega)]
    rw [shs_ld2410_scan_no_hdr _ _ _ hno9, hg8]
  · rw [if_neg h10]
    rw [shs_ld2410_scan_no_hdr _ _ _ hno9, hg8]

/-- The tail of a header-clean frame after the heuristic skip holds no
header, so any scan retains it. -/
theorem shs_scan_frame_drop9 (P : List Nat)
    (hnoemb : ∀ j, j < P.length + 10 → 1 ≤ j → ¬ ShsHdrAt (shs_ld2410_frame P) j)
    (fuel i : Nat) :
    shs_ld2410_scan fuel ((shs_ld2410_frame P).drop 9) i
      = ((shs_ld2410_frame P).drop 9, []) := by
  apply shs_ld2410_scan_no_hdr
  intro j hh
  have hfull := shs_hdrAt_of_drop _ _ _ hh
  have hb := shs_hdrAt_length _ _ hfull
  rw [shs_frame_length] at hb
  exact hnoemb (9 + j) (by omega) (by omega) hfull

/-- C5 (amended): for a valid receive frame whose bytes contain the header
pattern only at position 0 (no embedded header in length bytes, payload or
trailer), feeding any two-chunk split yields exactly the same single state
event as feeding the frame whole.  (The buffer contents can differ: a first
chunk of 9 bytes or more is consumed heuristically and the tail is retained,
while the whole feed leaves the buffer empty; and for payloads that embed
the header pattern the claim fails, see the counterexample.) -/
theorem shs_split_feed_agrees (P : List Nat) (n : Nat)
    (h3 : 3 ≤ P.length) (hfit : P.length + 10 ≤ 512)
    (hnoemb : ∀ j, j < P.length + 10 → 1 ≤ j → ¬ ShsHdrAt (shs_ld2410_frame P) j)
    (hn1 : 1 ≤ n) (hnl : n < P.length + 10) :
    (shs_ld2410_run (0, [])
        [(shs_ld2410_frame P).take n, (shs_ld2410_frame P).drop n]).2
      = [P.getD 2 0]
    ∧ (shs_ld2410_run (0, []) [shs_ld2410_frame P]).2 = [P.getD 2 0] := by
  have hlen : (shs_ld2410_frame P).length = P.length + 10 := shs_frame_length P
  have hwhole : shs_ld2410_feed (0, []) (shs_ld2410_frame P)
      = ((P.length + 10, []), [P.getD 2 0]) := by
    have heval := shs_feed_eval 0 [] (shs_ld2410_frame P)
      (by rw [hlen]; omega)
      (by simp only [List.length_nil]; rw [hlen]; omega)
    rw [List.nil_append] at heval
    rw [heval, hlen, shs_ld2410_scan_frame P h3 (by omega)]
    simp
  have hc1len : ((shs_ld2410_frame P).take n).length = n := by
    rw [List.length_take, hlen]
    omega
  have hc1ne : ((shs_ld2410_frame P).take n).length ≠ 0 := by
    rw [hc1len]
    omega
  have hc2len : ((shs_ld2410_frame P).drop n).length = P.length + 10 - n := by
    rw [List.length_drop, hlen]
  have hc2ne : ((shs_ld2410_frame P).drop n).length ≠ 0 := by
    rw [hc2len]
    omega
  refine ⟨?_, ?_⟩
  · by_cases hsplit : n ≤ 8
    · -- first chunk shorter than the minimum frame: fully retained
      have hf1 : shs_ld2410_feed (0, []) ((shs_ld2410_frame P).take n)
          = ((0, (shs_ld2410_frame P).take n), []) := by
        have heval := shs_feed_eval 0 [] ((shs_ld2410_frame P).take n)
          hc1ne (by simp only [List.length_nil]; rw [hc1len]; omega)
        rw [List.nil_append] at heval
        rw [heval, shs_ld2410_scan_short _ _ _ (by rw [hc1len]; omega)]
        simp
      have hf2 : shs_ld2410_feed (0, (shs_ld2410_frame P).take n)
            ((shs_ld2410_frame P).drop n)
          = ((P.length + 10, []), [P.getD 2 0]) := by
        have heval := shs_feed_eval 0 ((shs_ld2410_frame P).take n)
          ((shs_ld2410_frame P).drop n) hc2ne
          (by rw [hc1len, hc2len]; omega)
        rw [List.take_append_drop] at heval
        rw [heval, hlen, shs_ld2410_scan_frame P h3 (by omega)]
        simp
      rw [shs_ld2410_run, shs_ld2410_run, shs_ld2410_run]
      rw [hf1]
      dsimp only
      rw [hf2]
      simp
    · -- first chunk of at least 9 bytes: heuristic consumption
      have h9 : 9 ≤ n := by omega
      have hdroplen : (((shs_ld2410_frame P).take n).drop 9).length = n - 9 := by
        rw [List.length_drop, hc1len]
      have hf1 : shs_ld2410_feed (0, []) ((shs_ld2410_frame P).take n)
          = ((9, ((shs_ld2410_frame P).take n).drop 9), [P.getD 2 0]) := by
        have heval := shs_feed_eval 0 [] ((shs_ld2410_frame P).take n)
          hc1ne (by simp only [List.length_nil]; rw [hc1len]; omega)
        rw [List.nil_append] at heval
        rw [heval]
        rw [show shs_ld2410_scan ((shs_ld2410_frame P).take n).length
              ((shs_ld2410_frame P).take n) 0
            = (((shs_ld2410_frame P).take n).drop 9, [P.getD 2 0]) by
          rw [hc1len]
          exact shs_scan_take_prefix P n h3 hnoemb h9 hnl]
        dsimp only
        rw [hdroplen, hc1len]
        rw [show (0 + (n - (n - 9))) = 9 by omega]
      have happ2 : ((shs_ld2410_frame P).take n).drop 9 ++ (shs_ld2410_frame P).drop n
          = (shs_ld2410_frame P).drop 9 := by
        rw [List.drop_take]
        rw [show (shs_ld2410_frame P).drop n
            = ((shs_ld2410_frame P).drop 9).drop (n - 9) by
          rw [List.drop_drop]
          congr 1
          omega]
        exact List.take_append_drop _ _
      have hf2 := shs_feed_eval 9 (((shs_ld2410_frame P).take n).drop 9)
        ((shs_ld2410_frame P).drop n) hc2ne
        (by rw [hdroplen, hc2len]; omega)
      rw [happ2] at hf2
      rw [shs_scan_frame_drop9 P hnoemb] at hf2
      rw [shs_ld2410_run, shs_ld2410_run, shs_ld2410_run]
      rw [hf1]
      dsimp only
      rw [hf2]
      simp
  · rw [shs_ld2410_run, shs_ld2410_run]
    rw [hwhole]
    simp

/-- Witness for C5 (amended): the realistic 13-byte payload with state byte
7 holds no embedded header; splitting its frame at byte 5 gives the same
single event as the whole frame. -/
theorem shs_split_feed_agrees_witness :
    (shs_ld2410_run (0, [])
        [(shs_ld2410_frame [0, 0, 7, 0, 0, 0, 0, 0, 0, 0, 0, 0, 0]).take 5,
         (shs_ld2410_frame [0, 0, 7, 0, 0, 0, 0, 0, 0, 0, 0, 0, 0]).drop 5]).2
      = [7]
    ∧ (shs_ld2410_run (0, [])
        [shs_ld2410_frame [0, 0, 7, 0, 0, 0, 0, 0, 0, 0, 0, 0, 0]]).2 = [7] :=
  shs_split_feed_agrees [0, 0, 7, 0, 0, 0, 0, 0, 0, 0, 0, 0, 0] 5
    (by decide) (by decide) (by decide) (by decide) (by decide)

/-! ## Save-worker debounce lemmas -/

theorem shs_field_step_none_idle (f : SaveField) (u : Nat) (hp : f.pend = false) :
    shs_field_step f (u, none) = (f, none) := by
  simp [shs_field_step, hp]

theorem shs_field_step_none_quiet (f : SaveField) (u : Nat)
    (h : u < f.lastTick + 500) (hle : f.lastTick ≤ u) :
    shs_field_step f (u, none) = (f, none) := by
  simp only [shs_field_step, SHS_NVS_DEBOUNCE_MS]
  rw [if_neg]
  intro hc
  omega

theorem shs_field_step_none_flush (f : SaveField) (u : Nat)
    (hp : f.pend = true) (h : f.lastTick + 500 ≤ u) :
    shs_field_step f (u, none) = (⟨false, f.lastTick, f.val⟩, some f.val) := by
  simp only [shs_field_step, SHS_NVS_DEBOUNCE_MS]
  rw [if_pos ⟨hp, by omega⟩]

theorem shs_field_step_some (f : SaveField) (u v : Nat) :
    shs_field_step f (u, some v) = (⟨true, u, v % 256⟩, none) := by
  simp only [shs_field_step, SHS_NVS_DEBOUNCE_MS]
  rw [if_neg]
  intro hc
  omega

theorem shs_field_run_idle :
    ∀ (its : List (Nat × Option Nat)) (f : SaveField),
    f.pend = false →
    its.filterMap (fun it => it.2.map (fun v => (it.1, v))) = [] →
    (shs_field_run f its).2 = [] := by
  intro its
  induction its with
  | nil =>
    intro f _ _
    rfl
  | cons it0 its ih =>
    intro f hp hreq
    obtain ⟨u, om⟩ := it0
    cases om with
    | none =>
      rw [List.filterMap_cons_none (by rfl)] at hreq
      rw [shs_field_run, shs_field_step_none_idle f u hp]
      exact ih f hp hreq
    | some v =>
      rw [List.filterMap_cons_some (by rfl)] at hreq
      exact absurd hreq (by simp)

/-- Core debounce property, pending phase: with a pending value stamped at
f.lastTick, a schedule whose requests for this field all arrive with gaps
below the 500-tick quiet window, and some later poll iteration at least 500
ticks after the last request, the run performs exactly one write: the last
value. -/
theorem shs_field_run_pend :
    ∀ (its : List (Nat × Option Nat)) (f : SaveField) (reqs : List (Nat × Nat)),
    f.pend = true →
    List.Pairwise (fun a b : Nat × Option Nat => a.1 ≤ b.1) its →
    (∀ it ∈ its, f.lastTick ≤ it.1) →
    its.filterMap (fun it => it.2.map (fun v => (it.1, v))) = reqs →
    (∀ t1 v1, reqs.head? = some (t1, v1) → t1 < f.lastTick + 500) →
    List.Chain' (fun a b : Nat × Nat => b.1 < a.1 + 500) reqs →
    (∃ it ∈ its, it.2 = none
      ∧ ((reqs.getLast?.map Prod.fst).getD f.lastTick) + 500 ≤ it.1) →
    (shs_field_run f its).2
      = [((reqs.getLast?.map (fun r : Nat × Nat => r.2 % 256)).getD f.val)] := by
  intro its
  induction its with
  | nil =>
    intro f reqs _ _ _ _ _ _ hwit
    obtain ⟨it, hin, _⟩ := hwit
    exact absurd hin (by simp)
  | cons it0 its ih =>
    intro f reqs hp hsort hlast hreq hgap1 hchain hwit
    obtain ⟨u, om⟩ := it0
    obtain ⟨hhead, htail⟩ := List.pairwise_cons.mp hsort
    have hlastu : f.lastTick ≤ u := hlast (u, om) (List.mem_cons_self _ _)
    cases om with
    | none =>
      have hreq' : its.filterMap (fun it => it.2.map (fun v => (it.1, v))) = reqs := by
        rw [List.filterMap_cons_none (by rfl)] at hreq
        exact hreq
      have hmemtime : ∀ t v, (t, v) ∈ reqs → ∃ it2, it2 ∈ its ∧ it2.1 = t := by
        intro t v htv
        rw [← hreq'] at htv
        rw [List.mem_filterMap] at htv
        obtain ⟨a, hain, hfa⟩ := htv
        have ht : a.1 = t := by
          cases ha2 : a.2 with
          | none =>
            rw [ha2] at hfa
            exact absurd hfa (by simp)
          | some v2 =>
            rw [ha2] at hfa
            simp only [Option.map_some'] at hfa
            exact congrArg Prod.fst (Option.some.inj hfa)
        exact ⟨a, hain, ht⟩
      by_cases hfl : f.lastTick + 500 ≤ u
      · -- the flush fires now: there can be no request left
        have hreqnil : reqs = [] := by
          cases hreqs : reqs with
          | nil => rfl
          | cons r rs =>
            exfalso
            obtain ⟨t1, v1⟩ := r
            have hg := hgap1 t1 v1 (by rw [hreqs]; rfl)
            obtain ⟨it2, hit2, ht2⟩ := hmemtime t1 v1 (by rw [hreqs]; exact List.mem_cons_self _ _)
            have := hhead it2 hit2
            omega
        subst hreqnil
        rw [shs_field_run, shs_field_step_none_flush f u hp hfl]
        have hidle := shs_field_run_idle its ⟨false, f.lastTick, f.val⟩ rfl hreq'
        dsimp only
        rw [hidle]
        simp
      · -- too early: nothing happens this iteration
        rw [shs_field_run, shs_field_step_none_quiet f u (by omega) hlastu]
        dsimp only
        apply ih f reqs hp htail (fun it2 hit2 => hlast it2 (List.mem_cons_of_mem _ hit2))
          hreq' hgap1 hchain
        obtain ⟨itw, hitw, hwnone, hwt⟩ := hwit
        rcases List.mem_cons.mp hitw with hcase | hcase
        · exfalso
          subst hcase
          cases hg : reqs.getLast? with
          | none =>
            rw [hg] at hwt
            simp only [Option.map_none', Option.getD_none] at hwt
            omega
          | some rN =>
            obtain ⟨tN, vN⟩ := rN
            have hmem : (tN, vN) ∈ reqs :=
              List.mem_of_mem_getLast? (show (tN, vN) ∈ reqs.getLast? by rw [hg]; rfl)
            obtain ⟨it2, hit2, ht2⟩ := hmemtime tN vN hmem
            have hu2 := hhead it2 hit2
            rw [hg] at hwt
            simp only [Option.map_some', Option.getD_some] at hwt
            omega
        · exact ⟨itw, hcase, hwnone, hwt⟩
    | some v =>
      rw [List.filterMap_cons_some (by rfl)] at hreq
      subst hreq
      rw [shs_field_run, shs_field_step_some f u v]
      dsimp only
      rw [List.chain'_cons'] at hchain
      obtain ⟨hch1, hch2⟩ := hchain
      have hval : (((((u, v) :: its.filterMap (fun it => it.2.map (fun v => (it.1, v)))).getLast?).map
            (fun r : Nat × Nat => r.2 % 256)).getD f.val)
          = ((((its.filterMap (fun it => it.2.map (fun v => (it.1, v)))).getLast?).map
            (fun r : Nat × Nat => r.2 % 256)).getD (v % 256)) := by
        cases hfm : its.filterMap (fun it => it.2.map (fun v => (it.1, v))) with
        | nil => simp
        | cons x xs =>
          rw [List.getLast?_cons_cons]
          obtain ⟨lr, hlr⟩ : ∃ lr, (x :: xs).getLast? = some lr := by
            cases hx : (x :: xs).getLast? with
            | none =>
              rw [List.getLast?_eq_none_iff] at hx
              exact absurd hx (by simp)
            | some lr => exact ⟨lr, rfl⟩
          rw [hlr]
          simp
      rw [hval]
      apply ih ⟨true, u, v % 256⟩ (its.filterMap (fun it => it.2.map (fun v => (it.1, v))))
        rfl htail (fun it2 hit2 => hhead it2 hit2) rfl
        (fun t1 v1 hh => hch1 (t1, v1) (by rw [hh]; rfl)) hch2
      obtain ⟨itw, hitw, hwnone, hwt⟩ := hwit
      rcases List.mem_cons.mp hitw with hcase | hcase
      · exfalso
        rw [hcase] at hwnone
        exact absurd hwnone (by simp)
      · refine ⟨itw, hcase, hwnone, ?_⟩
        have htime : ((((u, v) :: its.filterMap (fun it => it.2.map (fun v => (it.1, v)))).getLast?).map
              Prod.fst).getD f.lastTick
            = ((((its.filterMap (fun it => it.2.map (fun v => (it.1, v)))).getLast?).map
              Prod.fst).getD u) := by
          cases hfm : its.filterMap (fun it => it.2.map (fun v => (it.1, v))) with
          | nil => simp
          | cons x xs =>
            rw [List.getLast?_cons_cons]
            obtain ⟨lr, hlr⟩ : ∃ lr, (x :: xs).getLast? = some lr := by
              cases hx : (x :: xs).getLast? with
              | none =>
                rw [List.getLast?_eq_none_iff] at hx
                exact absurd hx (by simp)
              | some lr => exact ⟨lr, rfl⟩
            rw [hlr]
            simp
        rw [htime] at hwt
        exact hwt

/-- Core debounce property from the initial idle state: N requests for one
debounced field with gaps below the quiet window followed by a poll at least
500 ticks after the last request produce exactly one write, of the last
value. -/
theorem shs_field_run_start :
    ∀ (its : List (Nat × Option Nat)) (f : SaveField) (reqs : List (Nat × Nat)),
    f.pend = false →
    List.Pairwise (fun a b : Nat × Option Nat => a.1 ≤ b.1) its →
    its.filterMap (fun it => it.2.map (fun v => (it.1, v))) = reqs →
    reqs ≠ [] →
    List.Chain' (fun a b : Nat × Nat => b.1 < a.1 + 500) reqs →
    (∃ it ∈ its, it.2 = none
      ∧ ((reqs.getLast?.map Prod.fst).getD 0) + 500 ≤ it.1) →
    (shs_field_run f its).2
      = [((reqs.getLast?.map (fun r : Nat × Nat => r.2 % 256)).getD 0)] := by
  intro its
  induction its with
  | nil =>
    intro f reqs _ _ hreq hne _ _
    exact absurd hreq.symm hne
  | cons it0 its ih =>
    intro f reqs hp hsort hreq hne hchain hwit
    obtain ⟨u, om⟩ := it0
    obtain ⟨hhead, htail⟩ := List.pairwise_cons.mp hsort
    cases om with
    | none =>
      have hreq' : its.filterMap (fun it => it.2.map (fun v => (it.1, v))) = reqs := by
        rw [List.filterMap_cons_none (by rfl)] at hreq
        exact hreq
      have hmemtime : ∀ t v, (t, v) ∈ reqs → ∃ it2, it2 ∈ its ∧ it2.1 = t := by
        intro t v htv
        rw [← hreq'] at htv
        rw [List.mem_filterMap] at htv
        obtain ⟨a, hain, hfa⟩ := htv
        have ht : a.1 = t := by
          cases ha2 : a.2 with
          | none =>
            rw [ha2] at hfa
            exact absurd hfa (by simp)
          | some v2 =>
            rw [ha2] at hfa
            simp only [Option.map_some'] at hfa
            exact congrArg Prod.fst (Option.some.inj hfa)
        exact ⟨a, hain, ht⟩
      rw [shs_field_run, shs_field_step_none_idle f u hp]
      dsimp only
      apply ih f reqs hp htail hreq' hne hchain
      obtain ⟨itw, hitw, hwnone, hwt⟩ := hwit
      rcases List.mem_cons.mp hitw with hcase | hcase
      · exfalso
        subst hcase
        cases hg : reqs.getLast? with
        | none =>
          rw [List.getLast?_eq_none_iff] at hg
          exact hne hg
        | some rN =>
          obtain ⟨tN, vN⟩ := rN
          have hmem : (tN, vN) ∈ reqs :=
            List.mem_of_mem_getLast? (show (tN, vN) ∈ reqs.getLast? by rw [hg]; rfl)
          obtain ⟨it2, hit2, ht2⟩ := hmemtime tN vN hmem
          have hu2 := hhead it2 hit2
          rw [hg] at hwt
          simp only [Option.map_some', Option.getD_some] at hwt
          omega
      · exact ⟨itw, hcase, hwnone, hwt⟩
    | some v =>
      rw [List.filterMap_cons_some (by rfl)] at hreq
      subst hreq
      rw [shs_field_run, shs_field_step_some f u v]
      dsimp only
      rw [List.chain'_cons'] at hchain
      obtain ⟨hch1, hch2⟩ := hchain
      have hval : (((((u, v) :: its.filterMap (fun it => it.2.map (fun v => (it.1, v)))).getLast?).map
            (fun r : Nat × Nat => r.2 % 256)).getD 0)
          = ((((its.filterMap (fun it => it.2.map (fun v => (it.1, v)))).getLast?).map
            (fun r : Nat × Nat => r.2 % 256)).getD (v % 256)) := by
        cases hfm : its.filterMap (fun it => it.2.map (fun v => (it.1, v))) with
        | nil => simp
        | cons x xs =>
          rw [List.getLast?_cons_cons]
          obtain ⟨lr, hlr⟩ : ∃ lr, (x :: xs).getLast? = some lr := by
            cases hx : (x :: xs).getLast? with
            | none =>
              rw [List.getLast?_eq_none_iff] at hx
              exact absurd hx (by simp)
            | some lr => exact ⟨lr, rfl⟩
          rw [hlr]
          simp
      rw [hval]
      apply shs_field_run_pend its ⟨true, u, v % 256⟩
        (its.filterMap (fun it => it.2.map (fun v => (it.1, v))))
        rfl htail (fun it2 hit2 => hhead it2 hit2) rfl
        (fun t1 v1 hh => hch1 (t1, v1) (by rw [hh]; rfl)) hch2
      obtain ⟨itw, hitw, hwnone, hwt⟩ := hwit
      rcases List.mem_cons.mp hitw with hcase | hcase
      · exfalso
        rw [hcase] at hwnone
        exact absurd hwnone (by simp)
      · refine ⟨itw, hcase, hwnone, ?_⟩
        have htime : ((((u, v) :: its.filterMap (fun it => it.2.map (fun v => (it.1, v)))).getLast?).map
              Prod.fst).getD 0
            = ((((its.filterMap (fun it => it.2.map (fun v => (it.1, v)))).getLast?).map
              Prod.fst).getD u) := by
          cases hfm : its.filterMap (fun it => it.2.map (fun v => (it.1, v))) with
          | nil => simp
          | cons x xs =>
            rw [List.getLast?_cons_cons]
            obtain ⟨lr, hlr⟩ : ∃ lr, (x :: xs).getLast? = some lr := by
              cases hx : (x :: xs).getLast? with
              | none =>
                rw [List.getLast?_eq_none_iff] at hx
                exact absurd hx (by simp)
              | some lr => exact ⟨lr, rfl⟩
            rw [hlr]
            simp
        rw [htime] at hwt
        exact hwt

theorem shs_flush_one_field (f : SaveField) (now : Nat) (k : SaveKey)
    (ws : List (SaveKey × Nat)) :
    (shs_worker_flush_one f now k ws).1 = (shs_field_step f (now, none)).1 := by
  simp only [shs_worker_flush_one, shs_field_step]
  split_ifs <;> rfl

theorem shs_flush_one_writes_ne (f : SaveField) (now : Nat) (k k' : SaveKey)
    (ws : List (SaveKey × Nat)) (hk : ¬ k = k') :
    (shs_worker_flush_one f now k ws).2.filter (fun e => decide (e.1 = k'))
      = ws.filter (fun e => decide (e.1 = k')) := by
  simp only [shs_worker_flush_one]
  split_ifs <;> simp [hk]

theorem shs_flush_one_writes_self (f : SaveField) (now : Nat) (k : SaveKey)
    (ws : List (SaveKey × Nat)) :
    (shs_worker_flush_one f now k ws).2.filter (fun e => decide (e.1 = k))
      = ws.filter (fun e => decide (e.1 = k))
        ++ (shs_field_step f (now, none)).2.toList.map (fun v => (k, v)) := by
  simp only [shs_worker_flush_one, shs_field_step]
  split_ifs <;> simp

theorem shs_field_step_some_eq (f : SaveField) (now v : Nat) :
    shs_field_step f (now, some v) = shs_field_step ⟨true, now, v % 256⟩ (now, none) := by
  simp [shs_field_step]

/-- One worker iteration treats each debounced field exactly like the
single-field debounce model: same field evolution and the same (possibly
absent) NVS write for its key; all other writes carry other keys. -/
theorem shs_worker_step_field (k : SaveKey) (hk : k ∈ shs_deb_keys)
    (w : SaveWorkerState) (it : Nat × Option SaveMsg) :
    shs_field_get (shs_save_worker_step w it) k
        = (shs_field_step (shs_field_get w k) (it.1,
            match it.2 with
            | some m => if m.type = shs_key_evt k then some m.u16 else none
            | none => none)).1
    ∧ (shs_save_worker_step w it).writes.filter (fun e => decide (e.1 = k))
        = w.writes.filter (fun e => decide (e.1 = k))
          ++ ((shs_field_step (shs_field_get w k) (it.1,
              match it.2 with
              | some m => if m.type = shs_key_evt k then some m.u16 else none
              | none => none)).2.toList.map (fun v => (k, v))) := by
  obtain ⟨now, om⟩ := it
  simp only [shs_deb_keys, List.mem_cons, List.mem_singleton, List.not_mem_nil,
    or_false] at hk
  rcases hk with rfl | rfl | rfl | rfl
  · cases om with
    | none =>
      constructor
      · simp only [shs_save_worker_step, shs_field_get]
        rw [shs_flush_one_field]
      · simp only [shs_save_worker_step, shs_field_get]
        rw [shs_flush_one_writes_ne _ _ SaveKey.stGate SaveKey.mvSens _ (by decide),
          shs_flush_one_writes_ne _ _ SaveKey.mvGate SaveKey.mvSens _ (by decide),
          shs_flush_one_writes_ne _ _ SaveKey.stSens SaveKey.mvSens _ (by decide),
          shs_flush_one_writes_self _ _ SaveKey.mvSens _]
    | some m =>
      obtain ⟨ty, u16⟩ := m
      cases ty with
      | immediateU16 =>
        constructor
        · simp only [shs_save_worker_step, shs_worker_receive, shs_field_get, shs_key_evt]
          rw [show (if SaveEvt.immediateU16 = SaveEvt.debSensMove then some u16 else none)
              = none from if_neg (by decide)]
          split_ifs <;> rw [shs_flush_one_field]
        · simp only [shs_save_worker_step, shs_worker_receive, shs_field_get, shs_key_evt]
          rw [show (if SaveEvt.immediateU16 = SaveEvt.debSensMove then some u16 else none)
              = none from if_neg (by decide)]
          split_ifs <;>
            rw [shs_flush_one_writes_ne _ _ SaveKey.stGate SaveKey.mvSens _ (by decide),
                shs_flush_one_writes_ne _ _ SaveKey.mvGate SaveKey.mvSens _ (by decide),
                shs_flush_one_writes_ne _ _ SaveKey.stSens SaveKey.mvSens _ (by decide),
                shs_flush_one_writes_self _ _ SaveKey.mvSens _] <;>
            simp [List.filter_append]
      | debSensMove =>
        constructor
        · simp only [shs_save_worker_step, shs_worker_receive, shs_field_get, shs_key_evt]
          rw [if_pos trivial, shs_flush_one_field, shs_field_step_some_eq]
        · simp only [shs_save_worker_step, shs_worker_receive, shs_field_get, shs_key_evt]
          rw [shs_flush_one_writes_ne _ _ SaveKey.stGate SaveKey.mvSens _ (by decide),
            shs_flush_one_writes_ne _ _ SaveKey.mvGate SaveKey.mvSens _ (by decide),
            shs_flush_one_writes_ne _ _ SaveKey.stSens SaveKey.mvSens _ (by decide),
            shs_flush_one_writes_self _ _ SaveKey.mvSens _]
          rw [if_pos trivial, shs_field_step_some_eq]
      | debSensStatic =>
        constructor
        · simp only [shs_save_worker_step, shs_worker_receive, shs_field_get, shs_key_evt]
          rw [shs_flush_one_field,
            show (if SaveEvt.debSensStatic = SaveEvt.debSensMove then some u16 else none)
              = none from if_neg (by decide)]
        · simp only [shs_save_worker_step, shs_worker_receive, shs_field_get, shs_key_evt]
          rw [shs_flush_one_writes_ne _ _ SaveKey.stGate SaveKey.mvSens _ (by decide),
            shs_flush_one_writes_ne _ _ SaveKey.mvGate SaveKey.mvSens _ (by decide),
            shs_flush_one_writes_ne _ _ SaveKey.stSens SaveKey.mvSens _ (by decide),
            shs_flush_one_writes_self _ _ SaveKey.mvSens _,
            show (if SaveEvt.debSensStatic = SaveEvt.debSensMove then some u16 else none)
              = none from if_neg (by decide)]
      | debGateMove =>
        constructor
        · simp only [shs_save_worker_step, shs_worker_receive, shs_field_get, shs_key_evt]
          rw [shs_flush_one_field,
            show (if SaveEvt.debGateMove = SaveEvt.debSensMove then some u16 else none)
              = none from if_neg (by decide)]
        · simp only [shs_save_worker_step, shs_worker_receive, shs_field_get, shs_key_evt]
          rw [shs_flush_one_writes_ne _ _ SaveKey.stGate SaveKey.mvSens _ (by decide),
            shs_flush_one_writes_ne _ _ SaveKey.mvGate SaveKey.mvSens _ (by decide),
            shs_flush_one_writes_ne _ _ SaveKey.stSens SaveKey.mvSens _ (by decide),
            shs_flush_one_writes_self _ _ SaveKey.mvSens _,
            show (if SaveEvt.debGateMove = SaveEvt.debSensMove then some u16 else none)
              = none from if_neg (by decide)]
      | debGateStatic =>
        constructor
        · simp only [shs_save_worker_step, shs_worker_receive, shs_field_get, shs_key_evt]
          rw [shs_flush_one_field,
            show (if SaveEvt.debGateStatic = SaveEvt.debSensMove then some u16 else none)
              = none from if_neg (by decide)]
        · simp only [shs_save_worker_step, shs_worker_receive, shs_field_get, shs_key_evt]
          rw [shs_flush_one_writes_ne _ _ SaveKey.stGate SaveKey.mvSens _ (by decide),
            shs_flush_one_writes_ne _ _ SaveKey.mvGate SaveKey.mvSens _ (by decide),
            shs_flush_one_writes_ne _ _ SaveKey.stSens SaveKey.mvSens _ (by decide),
            shs_flush_one_writes_self _ _ SaveKey.mvSens _,
            show (if SaveEvt.debGateStatic = SaveEvt.debSensMove then some u16 else none)
              = none from if_neg (by decide)]
  · cases om with
    | none =>
      constructor
      · simp only [shs_save_worker_step, shs_field_get]
        rw [shs_flush_one_field]
      · simp only [shs_save_worker_step, shs_field_get]
        rw [shs_flush_one_writes_ne _ _ SaveKey.stGate SaveKey.stSens _ (by decide),
          shs_flush_one_writes_ne _ _ SaveKey.mvGate SaveKey.stSens _ (by decide),
          shs_flush_one_writes_self _ _ SaveKey.stSens _,
          shs_flush_one_writes_ne _ _ SaveKey.mvSens SaveKey.stSens _ (by decide)]
    | some m =>
      obtain ⟨ty, u16⟩ := m
      cases ty with
      | immediateU16 =>
        constructor
        · simp only [shs_save_worker_step, shs_worker_receive, shs_field_get, shs_key_evt]
          rw [show (if SaveEvt.immediateU16 = SaveEvt.debSensStatic then some u16 else none)
              = none from if_neg (by decide)]
          split_ifs <;> rw [shs_flush_one_field]
        · simp only [shs_save_worker_step, shs_worker_receive, shs_field_get, shs_key_evt]
          rw [show (if SaveEvt.immediateU16 = SaveEvt.debSensStatic then some u16 else none)
              = none from if_neg (by decide)]
          split_ifs <;>
            rw [shs_flush_one_writes_ne _ _ SaveKey.stGate SaveKey.stSens _ (by decide),
                shs_flush_one_writes_ne _ _ SaveKey.mvGate SaveKey.stSens _ (by decide),
                shs_flush_one_writes_self _ _ SaveKey.stSens _,
                shs_flush_one_writes_ne _ _ SaveKey.mvSens SaveKey.stSens _ (by decide)] <;>
            simp [List.filter_append]
      | debSensMove =>
        constructor
        · simp only [shs_save_worker_step, shs_worker_receive, shs_field_get, shs_key_evt]
          rw [shs_flush_one_field,
            show (if SaveEvt.debSensMove = SaveEvt.debSensStatic then some u16 else none)
              = none from if_neg (by decide)]
        · simp only [shs_save_worker_step, shs_worker_receive, shs_field_get, shs_key_evt]
          rw [shs_flush_one_writes_ne _ _ SaveKey.stGate SaveKey.stSens _ (by decide),
            shs_flush_one_writes_ne _ _ SaveKey.mvGate SaveKey.stSens _ (by decide),
            shs_flush_one_writes_self _ _ SaveKey.stSens _,
            shs_flush_one_writes_ne _ _ SaveKey.mvSens SaveKey.stSens _ (by decide),
            show (if SaveEvt.debSensMove = SaveEvt.debSensStatic then some u16 else none)
              = none from if_neg (by decide)]
      | debSensStatic =>
        constructor
        · simp only [shs_save_worker_step, shs_worker_receive, shs_field_get, shs_key_evt]
          rw [if_pos trivial, shs_flush_one_field, shs_field_step_some_eq]
        · simp only [shs_save_worker_step, shs_worker_receive, shs_field_get, shs_key_evt]
          rw [shs_flush_one_writes_ne _ _ SaveKey.stGate SaveKey.stSens _ (by decide),
            shs_flush_one_writes_ne _ _ SaveKey.mvGate SaveKey.stSens _ (by decide),
            shs_flush_one_writes_self _ _ SaveKey.stSens _,
            shs_flush_one_writes_ne _ _ SaveKey.mvSens SaveKey.stSens _ (by decide)]
          rw [if_pos trivial, shs_field_step_some_eq]
      | debGateMove =>
        constructor
        · simp only [shs_save_worker_step, shs_worker_receive, shs_field_get, shs_key_evt]
          rw [shs_flush_one_field,
            show (if SaveEvt.debGateMove = SaveEvt.debSensStatic then some u16 else none)
              = none from if_neg (by decide)]
        · simp only [shs_save_worker_step, shs_worker_receive, shs_field_get, shs_key_evt]
          rw [shs_flush_one_writes_ne _ _ SaveKey.stGate SaveKey.stSens _ (by decide),
            shs_flush_one_writes_ne _ _ SaveKey.mvGate SaveKey.stSens _ (by decide),
            shs_flush_one_writes_self _ _ SaveKey.stSens _,
            shs_flush_one_writes_ne _ _ SaveKey.mvSens SaveKey.stSens _ (by decide),
            show (if SaveEvt.debGateMove = SaveEvt.debSensStatic then some u16 else none)
              = none from if_neg (by decide)]
      | debGateStatic =>
        constructor
        · simp only [shs_save_worker_step, shs_worker_receive, shs_field_get, shs_key_evt]
          rw [shs_flush_one_field,
            show (if SaveEvt.debGateStatic = SaveEvt.debSensStatic then some u16 else none)
              = none from if_neg (by decide)]
        · simp only [shs_save_worker_step, shs_worker_receive, shs_field_get, shs_key_evt]
          rw [shs_flush_one_writes_ne _ _ SaveKey.stGate SaveKey.stSens _ (by decide),
            shs_flush_one_writes_ne _ _ SaveKey.mvGate SaveKey.stSens _ (by decide),
            shs_flush_one_writes_self _ _ SaveKey.stSens _,
            shs_flush_one_writes_ne _ _ SaveKey.mvSens SaveKey.stSens _ (by decide),
            show (if SaveEvt.debGateStatic = SaveEvt.debSensStatic then some u16 else none)
              = none from if_neg (by decide)]
  · cases om with
    | none =>
      constructor
      · simp only [shs_save_worker_step, shs_field_get]
        rw [shs_flush_one_field]
      · simp only [shs_save_worker_step, shs_field_get]
        rw [shs_flush_one_writes_ne _ _ SaveKey.stGate SaveKey.mvGate _ (by decide),
          shs_flush_one_writes_self _ _ SaveKey.mvGate _,
          shs_flush_one_writes_ne _ _ SaveKey.stSens SaveKey.mvGate _ (by decide),
          shs_flush_one_writes_ne _ _ SaveKey.mvSens SaveKey.mvGate _ (by decide)]
    | some m =>
      obtain ⟨ty, u16⟩ := m
      cases ty with
      | immediateU16 =>
        constructor
        · simp only [shs_save_worker_step, shs_worker_receive, shs_field_get, shs_key_evt]
          rw [show (if SaveEvt.immediateU16 = SaveEvt.debGateMove then some u16 else none)
              = none from if_neg (by decide)]
          split_ifs <;> rw [shs_flush_one_field]
        · simp only [shs_save_worker_step, shs_worker_receive, shs_field_get, shs_key_evt]
          rw [show (if SaveEvt.immediateU16 = SaveEvt.debGateMove then some u16 else none)
              = none from if_neg (by decide)]
          split_ifs <;>
            rw [shs_flush_one_writes_ne _ _ SaveKey.stGate SaveKey.mvGate _ (by decide),
                shs_flush_one_writes_self _ _ SaveKey.mvGate _,
                shs_flush_one_writes_ne _ _ SaveKey.stSens SaveKey.mvGate _ (by decide),
                shs_flush_one_writes_ne _ _ SaveKey.mvSens SaveKey.mvGate _ (by decide)] <;>
            simp [List.filter_append]
      | debSensMove =>
        constructor
        · simp only [shs_save_worker_step, shs_worker_receive, shs_field_get, shs_key_evt]
          rw [shs_flush_one_field,
            show (if SaveEvt.debSensMove = SaveEvt.debGateMove then some u16 else none)
              = none from if_neg (by decide)]
        · simp only [shs_save_worker_step, shs_worker_receive, shs_field_get, shs_key_evt]
          rw [shs_flush_one_writes_ne _ _ SaveKey.stGate SaveKey.mvGate _ (by decide),
            shs_flush_one_writes_self _ _ SaveKey.mvGate _,
            shs_flush_one_writes_ne _ _ SaveKey.stSens SaveKey.mvGate _ (by decide),
            shs_flush_one_writes_ne _ _ SaveKey.mvSens SaveKey.mvGate _ (by decide),
            show (if SaveEvt.debSensMove = SaveEvt.debGateMove then some u16 else none)
              = none from if_neg (by decide)]
      | debSensStatic =>
        constructor
        · simp only [shs_save_worker_step, shs_worker_receive, shs_field_get, shs_key_evt]
          rw [shs_flush_one_field,
            show (if SaveEvt.debSensStatic = SaveEvt.debGateMove then some u16 else none)
              = none from if_neg (by decide)]
        · simp only [shs_save_worker_step, shs_worker_receive, shs_field_get, shs_key_evt]
          rw [shs_flush_one_writes_ne _ _ SaveKey.stGate SaveKey.mvGate _ (by decide),
            shs_flush_one_writes_self _ _ SaveKey.mvGate _,
            shs_flush_one_writes_ne _ _ SaveKey.stSens SaveKey.mvGate _ (by decide),
            shs_flush_one_writes_ne _ _ SaveKey.mvSens SaveKey.mvGate _ (by decide),
            show (if SaveEvt.debSensStatic = SaveEvt.debGateMove then some u16 else none)
              = none from if_neg (by decide)]
      | debGateMove =>
        constructor
        · simp only [shs_save_worker_step, shs_worker_receive, shs_field_get, shs_key_evt]
          rw [if_pos trivial, shs_flush_one_field, shs_field_step_some_eq]
        · simp only [shs_save_worker_step, shs_worker_receive, shs_field_get, shs_key_evt]
          rw [shs_flush_one_writes_ne _ _ SaveKey.stGate SaveKey.mvGate _ (by decide),
            shs_flush_one_writes_self _ _ SaveKey.mvGate _,
            shs_flush_one_writes_ne _ _ SaveKey.stSens SaveKey.mvGate _ (by decide),
            shs_flush_one_writes_ne _ _ SaveKey.mvSens SaveKey.mvGate _ (by decide)]
          rw [if_pos trivial, shs_field_step_some_eq]
      | debGateStatic =>
        constructor
        · simp only [shs_save_worker_step, shs_worker_receive, shs_field_get, shs_key_evt]
          rw [shs_flush_one_field,
            show (if SaveEvt.debGateStatic = SaveEvt.debGateMove then some u16 else none)
              = none from if_neg (by decide)]
        · simp only [shs_save_worker_step, shs_worker_receive, shs_field_get, shs_key_evt]
          rw [shs_flush_one_writes_ne _ _ SaveKey.stGate SaveKey.mvGate _ (by decide),
            shs_flush_one_writes_self _ _ SaveKey.mvGate _,
            shs_flush_one_writes_ne _ _ SaveKey.stSens SaveKey.mvGate _ (by decide),
            shs_flush_one_writes_ne _ _ SaveKey.mvSens SaveKey.mvGate _ (by decide),
            show (if SaveEvt.debGateStatic = SaveEvt.debGateMove then some u16 else none)
              = none from if_neg (by decide)]
  · cases om with
    | none =>
      constructor
      · simp only [shs_save_worker_step, shs_field_get]
        rw [shs_flush_one_field]
      · simp only [shs_save_worker_step, shs_field_get]
        rw [shs_flush_one_writes_self _ _ SaveKey.stGate _,
          shs_flush_one_writes_ne _ _ SaveKey.mvGate SaveKey.stGate _ (by decide),
          shs_flush_one_writes_ne _ _ SaveKey.stSens SaveKey.stGate _ (by decide),
          shs_flush_one_writes_ne _ _ SaveKey.mvSens SaveKey.stGate _ (by decide)]
    | some m =>
      obtain ⟨ty, u16⟩ := m
      cases ty with
      | immediateU16 =>
        constructor
        · simp only [shs_save_worker_step, shs_worker_receive, shs_field_get, shs_key_evt]
          rw [show (if SaveEvt.immediateU16 = SaveEvt.debGateStatic then some u16 else none)
              = none from if_neg (by decide)]
          split_ifs <;> rw [shs_flush_one_field]
        · simp only [shs_save_worker_step, shs_worker_receive, shs_field_get, shs_key_evt]
          rw [show (if SaveEvt.immediateU16 = SaveEvt.debGateStatic then some u16 else none)
              = none from if_neg (by decide)]
          split_ifs <;>
            rw [shs_flush_one_writes_self _ _ SaveKey.stGate _,
                shs_flush_one_writes_ne _ _ SaveKey.mvGate SaveKey.stGate _ (by decide),
                shs_flush_one_writes_ne _ _ SaveKey.stSens SaveKey.stGate _ (by decide),
                shs_flush_one_writes_ne _ _ SaveKey.mvSens SaveKey.stGate _ (by decide)] <;>
            simp [List.filter_append]
      | debSensMove =>
        constructor
        · simp only [shs_save_worker_step, shs_worker_receive, shs_field_get, shs_key_evt]
          rw [shs_flush_one_field,
            show (if SaveEvt.debSensMove = SaveEvt.debGateStatic then some u16 else none)
              = none from if_neg (by decide)]
        · simp only [shs_save_worker_step, shs_worker_receive, shs_field_get, shs_key_evt]
          rw [shs_flush_one_writes_self _ _ SaveKey.stGate _,
            shs_flush_one_writes_ne _ _ SaveKey.mvGate SaveKey.stGate _ (by decide),
            shs_flush_one_writes_ne _ _ SaveKey.stSens SaveKey.stGate _ (by decide),
            shs_flush_one_writes_ne _ _ SaveKey.mvSens SaveKey.stGate _ (by decide),
            show (if SaveEvt.debSensMove = SaveEvt.debGateStatic then some u16 else none)
              = none from if_neg (by decide)]
      | debSensStatic =>
        constructor
        · simp only [shs_save_worker_step, shs_worker_receive, shs_field_get, shs_key_evt]
          rw [shs_flush_one_field,
            show (if SaveEvt.debSensStatic = SaveEvt.debGateStatic then some u16 else none)
              = none from if_neg (by decide)]
        · simp only [shs_save_worker_step, shs_worker_receive, shs_field_get, shs_key_evt]
          rw [shs_flush_one_writes_self _ _ SaveKey.stGate _,
            shs_flush_one_writes_ne _ _ SaveKey.mvGate SaveKey.stGate _ (by decide),
            shs_flush_one_writes_ne _ _ SaveKey.stSens SaveKey.stGate _ (by decide),
            shs_flush_one_writes_ne _ _ SaveKey.mvSens SaveKey.stGate _ (by decide),
            show (if SaveEvt.debSensStatic = SaveEvt.debGateStatic then some u16 else none)
              = none from if_neg (by decide)]
      | debGateMove =>
        constructor
        · simp only [shs_save_worker_step, shs_worker_receive, shs_field_get, shs_key_evt]
          rw [shs_flush_one_field,
            show (if SaveEvt.debGateMove = SaveEvt.debGateStatic then some u16 else none)
              = none from if_neg (by decide)]
        · simp only [shs_save_worker_step, shs_worker_receive, shs_field_get, shs_key_evt]
          rw [shs_flush_one_writes_self _ _ SaveKey.stGate _,
            shs_flush_one_writes_ne _ _ SaveKey.mvGate SaveKey.stGate _ (by decide),
            shs_flush_one_writes_ne _ _ SaveKey.stSens SaveKey.stGate _ (by decide),
            shs_flush_one_writes_ne _ _ SaveKey.mvSens SaveKey.stGate _ (by decide),
            show (if SaveEvt.debGateMove = SaveEvt.debGateStatic then some u16 else none)
              = none from if_neg (by decide)]
      | debGateStatic =>
        constructor
        · simp only [shs_save_worker_step, shs_worker_receive, shs_field_get, shs_key_evt]
          rw [if_pos trivial, shs_flush_one_field, shs_field_step_some_eq]
        · simp only [shs_save_worker_step, shs_worker_receive, shs_field_get, shs_key_evt]
          rw [shs_flush_one_writes_self _ _ SaveKey.stGate _,
            shs_flush_one_writes_ne _ _ SaveKey.mvGate SaveKey.stGate _ (by decide),
            shs_flush_one_writes_ne _ _ SaveKey.stSens SaveKey.stGate _ (by decide),
            shs_flush_one_writes_ne _ _ SaveKey.mvSens SaveKey.stGate _ (by decide)]
          rw [if_pos trivial, shs_field_step_some_eq]

theorem shs_field_run_cons (f : SaveField) (x : Nat × Option Nat)
    (xs : List (Nat × Option Nat)) :
    shs_field_run f (x :: xs)
      = ((shs_field_run (shs_field_step f x).1 xs).1,
         (shs_field_step f x).2.toList ++ (shs_field_run (shs_field_step f x).1 xs).2) := rfl

theorem shs_proj_field_cons (k : SaveKey) (it : Nat × Option SaveMsg)
    (its : List (Nat × Option SaveMsg)) :
    shs_proj_field k (it :: its)
      = (it.1, match it.2 with
          | some m => if m.type = shs_key_evt k then some m.u16 else none
          | none => none) :: shs_proj_field k its := rfl

/-- Running the worker over a schedule evolves each debounced field exactly
as the single-field model run over the schedule's projection onto that
field, and the NVS writes carrying that field's key are exactly the model's
emissions. -/
theorem shs_worker_run_field (k : SaveKey) (hk : k ∈ shs_deb_keys)
    (sched : List (Nat × Option SaveMsg)) :
    ∀ w : SaveWorkerState,
    shs_field_get (shs_save_worker_run w sched) k
        = (shs_field_run (shs_field_get w k) (shs_proj_field k sched)).1
    ∧ (shs_save_worker_run w sched).writes.filter (fun e => decide (e.1 = k))
        = w.writes.filter (fun e => decide (e.1 = k))
          ++ ((shs_field_run (shs_field_get w k) (shs_proj_field k sched)).2.map
              (fun v => (k, v))) := by
  induction sched with
  | nil =>
    intro w
    refine ⟨rfl, ?_⟩
    simp [shs_save_worker_run, shs_field_run, shs_proj_field]
  | cons it its ih =>
    intro w
    obtain ⟨h1, h2⟩ := shs_worker_step_field k hk w it
    obtain ⟨ih1, ih2⟩ := ih (shs_save_worker_step w it)
    constructor
    · simp only [shs_save_worker_run]
      rw [ih1, h1, shs_proj_field_cons, shs_field_run_cons]
    · simp only [shs_save_worker_run]
      rw [ih2, h2, h1, shs_proj_field_cons, shs_field_run_cons]
      simp [List.map_append, List.append_assoc]

/-- C9: for every debounced field (moving or static sensitivity, moving or
static gate), N save requests for that field arriving with gaps shorter
than the 500 ms quiet period produce exactly one NVS write for that field,
carrying only the last requested value, once a poll finds the field quiet
for at least the debounce window; messages for other fields interleaved in
the same schedule do not disturb it. -/
theorem shs_save_debounce_coalesced
    (k : SaveKey) (hk : k ∈ shs_deb_keys)
    (w : SaveWorkerState) (sched : List (Nat × Option SaveMsg))
    (reqs : List (Nat × Nat)) (tN vN : Nat)
    (hpend : (shs_field_get w k).pend = false)
    (hw : w.writes = [])
    (hsorted : List.Pairwise (fun a b : Nat × Option SaveMsg => a.1 ≤ b.1) sched)
    (hreq : (shs_proj_field k sched).filterMap
        (fun x => x.2.map (fun v => (x.1, v))) = reqs)
    (hne : reqs ≠ [])
    (hrapid : List.Chain' (fun a b : Nat × Nat => b.1 < a.1 + 500) reqs)
    (hlast : reqs.getLast? = some (tN, vN))
    (hpoll : ∃ it ∈ sched, it.2 = none ∧ tN + 500 ≤ it.1) :
    (shs_save_worker_run w sched).writes.filter (fun e => decide (e.1 = k))
      = [(k, vN % 256)] := by
  have hsorted' : List.Pairwise (fun a b : Nat × Option Nat => a.1 ≤ b.1)
      (shs_proj_field k sched) := by
    simp only [shs_proj_field]
    rw [List.pairwise_map]
    exact hsorted
  have hpoll' : ∃ x ∈ shs_proj_field k sched, x.2 = none
      ∧ ((reqs.getLast?.map Prod.fst).getD 0) + 500 ≤ x.1 := by
    obtain ⟨it, hit, hnone, hle⟩ := hpoll
    refine ⟨(it.1, match it.2 with
        | some m => if m.type = shs_key_evt k then some m.u16 else none
        | none => none), ?_, ?_, ?_⟩
    · simp only [shs_proj_field]
      exact List.mem_map_of_mem _ hit
    · rw [hnone]
    · rw [hlast]
      simpa using hle
  have hfr := shs_field_run_start (shs_proj_field k sched) (shs_field_get w k) reqs
    hpend hsorted' hreq hne hrapid hpoll'
  rw [hlast] at hfr
  simp only [Option.map_some', Option.getD_some] at hfr
  obtain ⟨-, hruns⟩ := shs_worker_run_field k hk sched w
  rw [hruns, hw, hfr]
  simp

theorem shs_save_debounce_coalesced_witness :
    (shs_save_worker_run
        ⟨⟨false, 0, 60⟩, ⟨false, 0, 50⟩, ⟨false, 0, 8⟩, ⟨false, 0, 8⟩, 0, 0, []⟩
        [(0, some ⟨SaveEvt.debGateStatic, 3⟩), (100, some ⟨SaveEvt.debGateStatic, 4⟩),
         (200, some ⟨SaveEvt.debSensMove, 30⟩), (300, some ⟨SaveEvt.debGateStatic, 6⟩),
         (900, none)]).writes.filter (fun e => decide (e.1 = SaveKey.stGate))
      = [(SaveKey.stGate, 6 % 256)] :=
  shs_save_debounce_coalesced SaveKey.stGate (by decide)
    ⟨⟨false, 0, 60⟩, ⟨false, 0, 50⟩, ⟨false, 0, 8⟩, ⟨false, 0, 8⟩, 0, 0, []⟩
    [(0, some ⟨SaveEvt.debGateStatic, 3⟩), (100, some ⟨SaveEvt.debGateStatic, 4⟩),
     (200, some ⟨SaveEvt.debSensMove, 30⟩), (300, some ⟨SaveEvt.debGateStatic, 6⟩),
     (900, none)]
    [(0, 3), (100, 4), (300, 6)] 300 6
    rfl rfl (by decide) rfl (by decide) (by simp) rfl
    ⟨(900, none), by simp, rfl, by decide⟩
